import Mathlib

/-!
Verification of the configuration migration engine of `iocage_lib/ioc_json.py`
(class `IOCJson`): the schema upgrade ladder (`json_check_config`), the
uuid-to-tag migration (`json_migrate_uuid_to_tag`), the flat-text importer
(`json_convert_from_ucl`), the loader dispatch (`json_load`, final stage) and
the property validator (`json_check_prop`).

The Python code is shallowly embedded: configuration records are ordered
association lists mirroring Python `dict` insert-or-update semantics, the
process environment (effective uid, env-driven flags, file existence, host
release, jail running state) is an explicit `Env` record, and side effects
(`json_write`, fstab rewriting, ZFS property sets) are an explicit effect
trace.  Python exceptions (including `NameError` for the two unbound names
`pool` and `iocage` in the source, and `KeyError`/`FileNotFoundError`) are
modelled with `Except`.
-/

set_option maxRecDepth 4000

/-- A configuration record: an ordered string-to-string mapping, mirroring a
Python `dict` of the JSON configuration. -/
abbrev Conf := List (String × String)

/-- `d[k]` / `d.get(k)`: lookup of the first (unique) binding of `k`. -/
def cGet : Conf → String → Option String
  | [], _ => none
  | (k', v) :: rest, k => if k' = k then some v else cGet rest k

/-- `d[k] = v`: update in place if `k` is bound, else append (Python dict
insertion-order semantics). -/
def cSet : Conf → String → String → Conf
  | [], k, v => [(k, v)]
  | (k', v') :: rest, k, v =>
      if k' = k then (k', v) :: rest else (k', v') :: cSet rest k v

/-- `k in d`. -/
def cHas (c : Conf) (k : String) : Bool := (cGet c k).isSome

theorem cGet_cSet_self (c : Conf) (k v : String) : cGet (cSet c k v) k = some v := by
  induction c with
  | nil => simp [cGet, cSet]
  | cons p rest ih =>
    obtain ⟨k', v'⟩ := p
    by_cases h : k' = k
    · subst h; simp [cGet, cSet]
    · simp [cGet, cSet, h, ih]

theorem cGet_cSet_ne (c : Conf) {k k' : String} (v : String) (h : k ≠ k') :
    cGet (cSet c k v) k' = cGet c k' := by
  induction c with
  | nil => simp [cGet, cSet, h]
  | cons p rest ih =>
    obtain ⟨k₀, v₀⟩ := p
    by_cases h0 : k₀ = k
    · subst h0; simp [cGet, cSet, h]
    · simp only [cSet, if_neg h0]
      by_cases h1 : k₀ = k'
      · subst h1; simp [cGet]
      · simp [cGet, h1, ih]

theorem cGet_cSet (c : Conf) (k v k' : String) :
    cGet (cSet c k v) k' = if k = k' then some v else cGet c k' := by
  by_cases h : k = k'
  · subst h; simp [cGet_cSet_self]
  · simp [h, cGet_cSet_ne c v h]

theorem cSet_eq_of_cGet {c : Conf} {k v : String} (h : cGet c k = some v) :
    cSet c k v = c := by
  induction c with
  | nil => simp [cGet] at h
  | cons p rest ih =>
    obtain ⟨k', v'⟩ := p
    by_cases hk : k' = k
    · subst hk
      simp [cGet] at h
      simp [cSet, h]
    · simp only [cGet, if_neg hk] at h
      simp [cSet, hk, ih h]

theorem cGet_cSet_isSome (c : Conf) (k k' v : String) (h : (cGet c k).isSome) :
    (cGet (cSet c k' v) k).isSome := by
  by_cases hk : k' = k
  · subst hk; simp [cGet_cSet_self]
  · rw [cGet_cSet_ne c v hk]; exact h

/-! ### Python string primitives used by the source -/

/-- Python `str.rstrip()`: drop trailing whitespace. -/
def pyRstrip (s : String) : String :=
  String.mk ((s.toList.reverse.dropWhile Char.isWhitespace).reverse)

/-- Python `str.strip()`: drop leading and trailing whitespace. -/
def pyStrip (s : String) : String :=
  String.mk (((s.toList.dropWhile Char.isWhitespace).reverse.dropWhile
    Char.isWhitespace).reverse)

/-- Python `s.replace(c, "")` for a single-character needle: delete every
occurrence of `c`. -/
def removeChar (c : Char) (s : String) : String :=
  String.mk (s.toList.filter (fun x => x ≠ c))

/-- Python `s.replace(",", " ")`. -/
def commaToSpace (s : String) : String :=
  String.mk (s.toList.map (fun c => if c = ',' then ' ' else c))

/-- Does the character list `n` occur at the head of `h`? -/
def listStartsWith : List Char → List Char → Bool
  | [], _ => true
  | _ :: _, [] => false
  | a :: as, b :: bs => a = b && listStartsWith as bs

/-- Helper for `pyIn` on character lists. -/
def substrCheck (n : List Char) : List Char → Bool
  | [] => n.isEmpty
  | c :: cs => listStartsWith n (c :: cs) || substrCheck n cs

/-- Python `n in h` for strings: substring containment. -/
def pyIn (n h : String) : Bool := substrCheck n.toList h.toList

/-- Worker for `pySplitOn`: split on the (nonempty) separator `sep`,
left-to-right, non-overlapping, like Python `str.split(sep)`.  Structural
recursion on a fuel counter (any fuel at least the input length gives the
exact Python behaviour; the fuel never runs out for the wrapper below). -/
def splitOnFuel (sep : List Char) : Nat → List Char → List Char → List (List Char)
  | _, [], acc => [acc.reverse]
  | 0, l, acc => [acc.reverse ++ l]
  | fuel + 1, c :: cs, acc =>
      if listStartsWith sep (c :: cs) then
        acc.reverse :: splitOnFuel sep fuel (List.drop (sep.length - 1) cs) []
      else splitOnFuel sep fuel cs (c :: acc)

/-- `splitOnFuel` with enough fuel. -/
def splitOnGo (sep l acc : List Char) : List (List Char) :=
  splitOnFuel sep l.length l acc

/-- Python `s.split(sep)` for a nonempty separator. -/
def pySplitOn (s sep : String) : List String :=
  (splitOnGo sep.toList s.toList []).map String.mk

/-- Join character lists with a separator (used to rebuild an `rsplit`
prefix). -/
def joinWithSep (sep : List Char) : List (List Char) → List Char
  | [] => []
  | [x] => x
  | x :: y :: rest => x ++ sep ++ joinWithSep sep (y :: rest)

/-- Python `str.split()` with no argument: split on whitespace runs, dropping
empty fields. -/
def splitWsGo : List Char → List Char → List String
  | [], acc => if acc.isEmpty then [] else [String.mk acc.reverse]
  | c :: cs, acc =>
      if c.isWhitespace then
        (if acc.isEmpty then [] else [String.mk acc.reverse]) ++ splitWsGo cs []
      else splitWsGo cs (c :: acc)

/-- Python `str.split()` with no argument. -/
def pySplitWs (s : String) : List String := splitWsGo s.toList []

/-- `s.rsplit("-p", 1)[0]`: everything before the last occurrence of `"-p"`
(the whole string when `"-p"` does not occur).  Used to strip a patch-level
suffix from a release string. -/
def stripPatch (r : String) : String :=
  let parts := splitOnGo ['-', 'p'] r.toList []
  if parts.length ≤ 1 then r else String.mk (joinWithSep ['-', 'p'] parts.dropLast)

/-- Split a character list at the first `'='`; mirrors Python
`line.partition("=")`, whose third component is `""` when `'='` is absent. -/
def splitAtEq : List Char → List Char × List Char
  | [] => ([], [])
  | c :: cs =>
      if c = '=' then ([], cs)
      else
        let p := splitAtEq cs
        (c :: p.1, p.2)

/-- String version of `splitAtEq`. -/
def splitAtEqStr (s : String) : String × String :=
  let p := splitAtEq s.toList
  (String.mk p.1, String.mk p.2)

/-! ### The two legacy timestamp formats of `json_migrate_uuid_to_tag`

`datetime.datetime.strptime(tag, "%Y-%m-%d@%H:%M:%S:%f")` and
`strptime(tag, "%Y-%m-%d@%H:%M:%S")`.  CPython compiles each `%`-directive to
a digit regex (`%Y`: exactly four digits; `%m`: one or two digits in 1..12;
`%d`: 1..31; `%H`: 0..23; `%M`: 0..59; `%S`: 0..61; `%f`: one to six digits),
requires the literal separators in between and full consumption of the
string, and then builds a `datetime`, which additionally validates the
calendar date (day against month length, year at least 1) and rejects leap
seconds (60, 61).  A `tag` counts as date-like exactly when this whole
pipeline raises no `ValueError`. -/

/-- Numeric value of a list of ASCII digits. -/
def digitsVal (cs : List Char) : Nat :=
  cs.foldl (fun n c => n * 10 + (c.toNat - 48)) 0

/-- A strptime numeric field: nonempty, all digits, at most `maxLen` long,
value within `lo..hi`. -/
def numField (s : String) (maxLen lo hi : Nat) : Bool :=
  let cs := s.toList
  ¬cs.isEmpty && cs.all Char.isDigit && cs.length ≤ maxLen &&
    lo ≤ digitsVal cs && digitsVal cs ≤ hi

def isLeapYear (y : Nat) : Bool :=
  y % 4 = 0 && (y % 100 ≠ 0 || y % 400 = 0)

def daysInMonth (y m : Nat) : Nat :=
  if m = 2 then (if isLeapYear y then 29 else 28)
  else if m = 4 ∨ m = 6 ∨ m = 9 ∨ m = 11 then 30
  else 31

/-- `%Y-%m-%d` followed by the `datetime` calendar validation. -/
def dateOk (ys ms ds : String) : Bool :=
  ys.toList.length = 4 && ys.toList.all Char.isDigit &&
    numField ms 2 1 12 && numField ds 2 1 31 &&
    1 ≤ digitsVal ys.toList &&
    digitsVal ds.toList ≤ daysInMonth (digitsVal ys.toList) (digitsVal ms.toList)

/-- `%H:%M:%S` with the `datetime` rejection of leap seconds. -/
def timeOk (hs mis ss : String) : Bool :=
  numField hs 2 0 23 && numField mis 2 0 59 && numField ss 2 0 59

/-- `%f`: one to six digits. -/
def fracOk (fs : String) : Bool :=
  let cs := fs.toList
  ¬cs.isEmpty && cs.all Char.isDigit && cs.length ≤ 6

/-- `tag` parses under `"%Y-%m-%d@%H:%M:%S:%f"`. -/
def strptimeFull (s : String) : Bool :=
  match pySplitOn s "@" with
  | [d, t] =>
    match pySplitOn d "-", pySplitOn t ":" with
    | [ys, ms, ds], [hs, mis, ss, fs] =>
        dateOk ys ms ds && timeOk hs mis ss && fracOk fs
    | _, _ => false
  | _ => false

/-- `tag` parses under the legacy `"%Y-%m-%d@%H:%M:%S"`. -/
def strptimeLegacy (s : String) : Bool :=
  match pySplitOn s "@" with
  | [d, t] =>
    match pySplitOn d "-", pySplitOn t ":" with
    | [ys, ms, ds], [hs, mis, ss] => dateOk ys ms ds && timeOk hs mis ss
    | _, _ => false
  | _ => false

/-- The source tries the full format first and falls back to the legacy one;
the tag is date-like when either succeeds. -/
def dateLikeTag (tag : String) : Bool := strptimeFull tag || strptimeLegacy tag

/-! ### The MAC-address regex of `json_check_prop`

`re.match("[0-9a-f]{2}([-:]?)[0-9a-f]{2}(\\1[0-9a-f]{2}){4}$", v.lower())`:
two hex digits, an optional separator (`-` or `:`), then five further groups
of two hex digits each preceded by the same (possibly empty) separator.
Because the separator alternatives are disjoint from hex digits, the regex
backtracking is deterministic: the separator is present exactly when the
third character is `-` or `:`. -/

def isHexDigitLower (c : Char) : Bool :=
  ('0' ≤ c && c ≤ '9') || ('a' ≤ c && c ≤ 'f')

/-- `n` repetitions of (separator, when given, followed by two hex digits),
then end of string. -/
def macTail (sep : Option Char) : Nat → List Char → Bool
  | 0, [] => true
  | 0, _ :: _ => false
  | _ + 1, [] => false
  | n + 1, c :: rest =>
    match sep with
    | some s =>
      match rest with
      | h1 :: h2 :: rest' =>
          c = s && isHexDigitLower h1 && isHexDigitLower h2 && macTail sep n rest'
      | _ => false
    | none =>
      match rest with
      | h2 :: rest' => isHexDigitLower c && isHexDigitLower h2 && macTail sep n rest'
      | _ => false

/-- Full match of the MAC regex against an (already lowercased) string. -/
def macMatch (s : String) : Bool :=
  match s.toList with
  | h1 :: h2 :: rest =>
    isHexDigitLower h1 && isHexDigitLower h2 &&
      (match rest with
       | c :: _ =>
           if c = '-' || c = ':' then macTail (some c) 5 rest
           else macTail none 5 rest
       | [] => false)
  | _ => false

/-! ### Environment, errors and effects -/

/-- The process environment and external collaborators consulted by `IOCJson`.
Pure inputs of the embedding; fields marked "spec" model collaborators whose
code is outside `iocage_lib/ioc_json.py` through the narrow interfaces of the
specification (RunningStateOracle, StorageBackend, ConfigStore). -/
structure Env where
  /-- `os.geteuid()`. -/
  euid : Nat
  /-- `self.force` (from the `IOCAGE_FORCE` environment variable, default
  `TRUE`). -/
  force : Bool
  /-- `self.stop` constructor flag. -/
  stop : Bool
  /-- spec: `RunningStateOracle.isRunning` — truthiness of the `state`
  derived from the `jls` probe in `json_check_config` version 8. -/
  running : Bool
  /-- `self.cli` constructor flag. -/
  cli : Bool
  /-- `self["host_hostuuid"]`: `dict.get(self, "host_hostuuid",
  self.hostid)` via `IOCJson.__getitem__`, modelled as the value that
  access denotes.  (In the source, `__getitem__` on a not-yet-loaded
  instance first re-enters `json_load`; the embedding abstracts the
  eventual value rather than that re-entrancy.) -/
  selfHostUuid : String
  /-- `self.host_release` (parsed from `/bin/freebsd-version`). -/
  hostRelease : String
  /-- `self.iocroot.mountpoint`. -/
  iocroot : String
  /-- `self.location`. -/
  location : String
  /-- `self.root_dataset.name`. -/
  rootDsName : String
  /-- `os.path.exists` / whether a `fileinput` target exists. -/
  fileExists : String → Bool
  /-- spec: whether `ConfigStore.write` (`json_write`, atomic write of
  `location + "/config.json"`) succeeds at a location; `false` means the
  open raises `FileNotFoundError`. -/
  writeOk : String → Bool
  /-- spec: the host's default-route interface
  (`netifaces.gateways()["default"][AF_INET][1]`), `none` when absent. -/
  defaultIface : Option String
  /-- spec: `netifaces.interfaces()`. -/
  netIfaces : List String

/-- Errors (Python exceptions) surfaced by the embedded operations.  A
`logit` call at level EXCEPTION is issued by `iocage_lib.ioc_common.logit`,
which is outside `src/`; modelled from the spec (§7): an EXCEPTION-level log
aborts the operation with the error named by its message. -/
inductive Err
  /-- "You need to be root to convert the configurations to the new
  format!" (PermissionError). -/
  | permission
  /-- "A renaming operation is required to continue." -/
  | renameRequired
  /-- Python `NameError` — the source references a name that is unbound at
  that point (`pool` in `json_migrate_uuid_to_tag`, `iocage` in
  `json_check_config`, `tag` in the rename-recovery handler). -/
  | nameError (n : String)
  /-- `RuntimeError("Configuration is missing! ...")`. -/
  | configMissing
  /-- "... is running, all jails must be stopped before iocage will continue
  migration" / InstanceRunningError. -/
  | instanceRunning
  /-- Python `KeyError` on a missing dict key. -/
  | keyError (k : String)
  /-- Python `FileNotFoundError` for the path. -/
  | fileNotFound (p : String)
  /-- The EXCEPTION-level "Please issue your command again." after a rename
  was detected during persistence. -/
  | pleaseReissue
  /-- A validation EXCEPTION from `json_check_prop` with its message. -/
  | invalidValue (msg : String)
deriving Repr, DecidableEq

/-- Observable side effects, in program order.  `jsonWrite` is
`ConfigStore.write` (spec: `json_write` via `open_atomic`, outside `src/`);
`fstabRewrite` is the `fileinput` in-place identifier-to-tag substitution;
`zfsSet` is a StorageBackend property write. -/
inductive Eff
  | jsonWrite (location : String) (data : Conf)
  | fstabRewrite (path old new : String)
  | zfsSet (target key value : String)
deriving Repr, DecidableEq

/-- Is an effect a `json_write` persistence? -/
def Eff.isJsonWrite : Eff → Bool
  | .jsonWrite _ _ => true
  | _ => false

/-- `IOCJson.CONFIG_VERSION`. -/
def CONFIG_VERSION : String := "14"

/-! ### `json_migrate_uuid_to_tag` -/

/-- Result of `json_migrate_uuid_to_tag`: either the returned triple
`(conf, rtrn, date)`, or a raised exception together with the record as
mutated in place up to the raise (Python dicts are mutated in place, so the
caller observes these writes even on an exception). -/
inductive MigrateOut
  | ok (conf : Conf) (rtrn : Bool) (date : Bool)
  | err (e : Err) (conf : Conf)
deriving Repr, DecidableEq

/-- `json_migrate_uuid_to_tag(uuid, tag, state, conf)`.

* If `tag` parses under either legacy timestamp format, the local `tag` is
  replaced by `uuid` and control falls through to the final block: it sets
  `conf["host_hostuuid"] = tag` (now `uuid`), reads `conf["host_hostname"]`
  (a `KeyError` when absent), overwrites it with `uuid` when it equals
  `uuid`, and returns `(conf, False, True)` — no storage call happens.
* Otherwise, a running instance either defers (`self.stop` set: return
  `(conf, True, False)` untouched) or aborts with the running-instance
  EXCEPTION.
* Otherwise the rename protocol starts at
  `jail_parent_ds = f"{pool}/iocage/jails/{uuid}"`, but `pool` is an unbound
  name in this method, so Python raises `NameError` before any storage
  call; neither surrounding `except libzfs.ZFSException` handler catches
  it. -/
def json_migrate_uuid_to_tag (env : Env) (uuid tag : String) (state : Bool)
    (conf : Conf) : MigrateOut × List Eff :=
  if dateLikeTag tag then
    let c1 := cSet conf "host_hostuuid" uuid
    match cGet c1 "host_hostname" with
    | none => (.err (.keyError "host_hostname") c1, [])
    | some h =>
        let c2 := if h = uuid then cSet c1 "host_hostname" uuid else c1
        (.ok c2 false true, [])
  else
    if env.stop && state then (.ok conf true false, [])
    else if state then (.err .instanceRunning conf, [])
    else (.err (.nameError "pool") conf, [])

/-! ### `json_check_config`: the schema upgrade ladder -/

/-- Version 2 keys: `sysvmsg`, `sysvsem`, `sysvshm` are read jointly in one
`try`; if any one is missing the `except KeyError` resets all three local
variables to `"new"`, and all three keys are then (re)assigned. -/
def v2keys (c : Conf) : Conf :=
  match cGet c "sysvmsg", cGet c "sysvsem", cGet c "sysvshm" with
  | some m, some s, some h =>
      cSet (cSet (cSet c "sysvmsg" m) "sysvsem" s) "sysvshm" h
  | _, _, _ =>
      cSet (cSet (cSet c "sysvmsg" "new") "sysvsem" "new") "sysvshm" "new"

/-- `{iocroot}/releases/{release}/root/bin/freebsd-version`. -/
def relMarker (env : Env) (release : String) : String :=
  env.iocroot ++ "/releases/" ++ release ++ "/root/bin/freebsd-version"

/-- `{iocroot}/templates/{host_hostuuid}/root/bin/freebsd-version`. -/
def tmplMarker (env : Env) : String :=
  env.iocroot ++ "/templates/" ++ env.selfHostUuid ++ "/root/bin/freebsd-version"

/-- `release[:4].endswith("-")`. -/
def take4EndsDash (release : String) : Bool :=
  match (release.toList.take 4).reverse with
  | '-' :: _ => true
  | _ => false

/-- Version 3 keys: release normalization.

* A missing `release` key reaches `iocage.lib.ioc_common.logit(...)` — but
  `iocage` is an unbound name in this module (only `iocage_lib` is
  imported), so Python raises `NameError` there.
* The stored release is stripped of its `-pN` suffix, the first existing of
  the two `freebsd-version` marker files is selected (a `RuntimeError`
  "Configuration is missing!" when neither exists), and then either the
  original release is kept (old `X.Y-` naming) or the release is re-derived
  from the host and the original moved to `cloned_release`. -/
def v3release (env : Env) (c : Conf) : Except Err Conf :=
  match cGet c "release" with
  | none => .error (.nameError "iocage")
  | some r0 =>
      let release := stripPatch r0
      if env.fileExists (relMarker env release) || env.fileExists (tmplMarker env) then
        if take4EndsDash release then
          .ok (cSet (cSet c "release" r0) "cloned_release"
            ((cGet c "cloned_release").getD "LEGACY_JAIL"))
        else
          .ok (cSet (cSet c "release" env.hostRelease) "cloned_release" r0)
      else .error .configMissing

/-- Versions 4–7: `basejail` (default `"no"`), `comment` (default `"none"`),
forced `host_time = "yes"`, forced `depends = "none"`. -/
def v4to7 (c : Conf) : Conf :=
  let c4 := cSet c "basejail" ((cGet c "basejail").getD "no")
  let c5 := cSet c4 "comment" ((cGet c4 "comment").getD "none")
  let c6 := cSet c5 "host_time" "yes"
  cSet c6 "depends" "none"

/-- Version 8: uuid-to-tag migration.  Returns `(conf, earlyReturn,
renamed)` on the non-raising paths.

* No `tag` key: the `except KeyError: pass` swallows the lookup failure.
* `tag == uuid`: nothing happens.
* Otherwise, with `self.force` unset the renaming-required EXCEPTION is
  raised; else `json_migrate_uuid_to_tag` runs.  A `KeyError` it raises is
  swallowed by the same `except KeyError` (the record keeps the in-place
  mutations).  After a normal migration return, `jail_zfs_dataset` is
  pointed at the tag path; when the third component `date` is false the
  fstab at `{iocroot}/jails/{tag}/fstab` is rewritten in place
  (`FileNotFoundError` when missing — the jail was not renamed on the
  deferral path) and `renamed` is set; when the second component `rtrn` is
  true the record is returned to the caller right here. -/
def v8 (env : Env) (c : Conf) : Except Err (Conf × Bool × Bool) × List Eff :=
  match cGet c "tag" with
  | none => (.ok (c, false, false), [])
  | some tag =>
      let uuid := env.selfHostUuid
      if tag = uuid then (.ok (c, false, false), [])
      else if env.force = false then (.error .renameRequired, [])
      else
        match json_migrate_uuid_to_tag env uuid tag env.running c with
        | (.err (.keyError _) cP, tr) => (.ok (cP, false, false), tr)
        | (.err e _, tr) => (.error e, tr)
        | (.ok cM rtrn date, tr) =>
            let c' := cSet cM "jail_zfs_dataset" ("iocage/jails/" ++ tag ++ "/data")
            if date = false then
              let fp := env.iocroot ++ "/jails/" ++ tag ++ "/fstab"
              if env.fileExists fp then
                (.ok (c', rtrn, true), tr ++ [.fstabRewrite fp uuid tag])
              else (.error (.fileNotFound fp), tr)
            else (.ok (c', rtrn, false), tr)

/-- Versions 9–14: `dhcp`/`bpf` (read jointly like the sysv triple),
`vnet_interfaces`, the `CONFIG_VERSION` stamp, `hostid_strict_check`,
`allow_mlock`, and the two falsiness-guarded defaults
`vnet_default_interface` and `allow_tun` (`if not conf.get(k)`, so both a
missing key and an empty string are replaced). -/
def v9to14 (c : Conf) : Conf :=
  let db : String × String :=
    match cGet c "dhcp", cGet c "bpf" with
    | some d, some b => (d, b)
    | _, _ => ("off", "no")
  let c9 := cSet (cSet c "dhcp" db.1) "bpf" db.2
  let c10 := cSet c9 "vnet_interfaces" ((cGet c9 "vnet_interfaces").getD "none")
  let cv := cSet c10 "CONFIG_VERSION" CONFIG_VERSION
  let c11 := cSet cv "hostid_strict_check" ((cGet cv "hostid_strict_check").getD "off")
  let c12 := cSet c11 "allow_mlock" ((cGet c11 "allow_mlock").getD "0")
  let c13 :=
    if (cGet c12 "vnet_default_interface").getD "" = "" then
      cSet c12 "vnet_default_interface" "none"
    else c12
  if (cGet c13 "allow_tun").getD "" = "" then cSet c13 "allow_tun" "0" else c13

/-- The persistence tail of `json_check_config`.  With `default` unset and
`renamed` unset, `json_write(conf)` runs; a `FileNotFoundError` from it is
handled by relocating to `{iocroot}/jails/{tag}` (a `NameError` when the
local `tag` was never bound, i.e. the record had no `tag` key), writing
there and then raising the "Please issue your command again." EXCEPTION.
The separate `if renamed:` block (outside the `if not default:`) likewise
relocates, writes and raises. -/
def persistTail (env : Env) (c : Conf) (tagVar : Option String)
    (renamed default : Bool) (tr : List Eff) : Except Err Conf × List Eff :=
  let step1 : Option Err × List Eff :=
    if default = false ∧ renamed = false then
      if env.writeOk env.location then (none, tr ++ [.jsonWrite env.location c])
      else
        match tagVar with
        | none => (some (.nameError "tag"), tr)
        | some t =>
            let newLoc := env.iocroot ++ "/jails/" ++ t
            if env.writeOk newLoc then (some .pleaseReissue, tr ++ [.jsonWrite newLoc c])
            else (some (.fileNotFound newLoc), tr)
    else (none, tr)
  match step1 with
  | (some e, tr2) => (.error e, tr2)
  | (none, tr2) =>
      if renamed then
        match tagVar with
        | none => (.error (.nameError "tag"), tr2)
        | some t =>
            let newLoc := env.iocroot ++ "/jails/" ++ t
            if env.writeOk newLoc then (.error .pleaseReissue, tr2 ++ [.jsonWrite newLoc c])
            else (.error (.fileNotFound newLoc), tr2)
      else (.ok c, tr2)

/-- `json_check_config(conf, default)`: the ordered upgrade ladder.
Requires effective uid 0 up front; runs versions 2 through 7, the version-8
migration (whose `rtrn` signal returns the record immediately, before the
version stamp), versions 9 through 14, and the persistence tail. -/
def json_check_config (env : Env) (conf : Conf) (default : Bool) :
    Except Err Conf × List Eff :=
  if env.euid ≠ 0 then (.error .permission, [])
  else
    match v3release env (v2keys conf) with
    | .error e => (.error e, [])
    | .ok c3 =>
        let c7 := v4to7 c3
        match v8 env c7 with
        | (.error e, tr) => (.error e, tr)
        | (.ok (c8, earlyRet, renamed), tr) =>
            if earlyRet then (.ok c8, tr)
            else persistTail env (v9to14 c8) (cGet c7 "tag") renamed default tr

/-- The final dispatch of `json_load` (lines 424–430): a record already
stamped with the current version is adopted as-is; anything else goes
through `json_check_config`. -/
def json_load_final (env : Env) (conf : Conf) : Except Err Conf × List Eff :=
  if cGet conf "CONFIG_VERSION" = some CONFIG_VERSION then (.ok conf, [])
  else json_check_config env conf false

/-- Did this upgrade take the version-8 "return early so the caller can stop
the jail" path? -/
def upgradeTookRetryPath (env : Env) (conf : Conf) : Bool :=
  match v3release env (v2keys conf) with
  | .error _ => false
  | .ok c3 =>
      match v8 env (v4to7 c3) with
      | (.ok (_, earlyRet, _), _) => earlyRet
      | _ => false

/-- Every key the defaulting steps of the ladder (re)assert on the
non-migration path. -/
def ladderKeys : List String :=
  ["sysvmsg", "sysvsem", "sysvshm", "release", "cloned_release", "basejail",
   "comment", "host_time", "depends", "dhcp", "bpf", "vnet_interfaces",
   "CONFIG_VERSION", "hostid_strict_check", "allow_mlock",
   "vnet_default_interface", "allow_tun"]

/-! ### `json_convert_from_ucl`: the flat-text importer -/

/-- One line of the UCL conversion loop: `line.partition("=")`, the key is
the part before the first `=` with trailing whitespace removed
(`rstrip`), the value is the part after it with every `;` removed, then
every `"` removed, then stripped; the pair is stored unconditionally (a line
without `=` stores the `rstrip`ped whole line with value `""`, because
`partition` then returns `(line, "", "")`). -/
def uclLine (acc : Conf) (line : String) : Conf :=
  let p := splitAtEqStr line
  cSet acc (pyRstrip p.1) (pyStrip (removeChar '"' (removeChar ';' p.2)))

/-- The whole conversion loop over `conf.readlines()`, starting from the
empty dict. -/
def uclParse (lines : List String) : Conf := lines.foldl uclLine []

/-- `json_convert_from_ucl()`: requires effective uid 0, parses the lines of
`location + "/config"` (supplied here as input) and persists the result via
`json_write`. -/
def json_convert_from_ucl (env : Env) (lines : List String) :
    Except Err Unit × List Eff :=
  if env.euid ≠ 0 then (.error .permission, [])
  else (.ok (), [.jsonWrite env.location (uclParse lines)])

/-! ### `json_check_prop`: the property validator -/

/-- The `props` catalog of `json_check_prop`, with each Python value turned
into the list that `for k in props[key]` iterates: a tuple becomes its
elements, a plain string (the values of `memoryuse`, `pcpu` and `priority`)
becomes its characters as one-character strings.  `priority` is
`str(tuple(range(1, 100)))`, i.e. the text `"(1, 2, 3, ..., 99)"`; its
distinct characters in order of first occurrence are listed (duplicates are
irrelevant to the membership test, and its Python `[0]` is `"("`). -/
def propsTable : List (String × List String) := [
  ("interfaces", [":", ","]),
  ("host_domainname", ["string"]),
  ("host_hostname", ["string"]),
  ("exec_fib", ["string"]),
  ("ip4_addr", ["string"]),
  ("ip4_saddrsel", ["0", "1"]),
  ("ip4", ["new", "inherit", "none"]),
  ("ip6_addr", ["string"]),
  ("ip6_saddrsel", ["0", "1"]),
  ("ip6", ["new", "inherit", "none"]),
  ("defaultrouter", ["string"]),
  ("defaultrouter6", ["string"]),
  ("resolver", ["string"]),
  ("mac_prefix", ["string"]),
  ("vnet0_mac", ["string"]),
  ("vnet1_mac", ["string"]),
  ("vnet2_mac", ["string"]),
  ("vnet3_mac", ["string"]),
  ("devfs_ruleset", ["string"]),
  ("exec_start", ["string"]),
  ("exec_stop", ["string"]),
  ("exec_prestart", ["string"]),
  ("exec_poststart", ["string"]),
  ("exec_prestop", ["string"]),
  ("exec_poststop", ["string"]),
  ("exec_clean", ["0", "1"]),
  ("exec_timeout", ["string"]),
  ("stop_timeout", ["string"]),
  ("exec_jail_user", ["string"]),
  ("exec_system_jail_user", ["string"]),
  ("exec_system_user", ["string"]),
  ("mount_devfs", ["0", "1"]),
  ("mount_fdescfs", ["0", "1"]),
  ("enforce_statfs", ["0", "1", "2"]),
  ("children_max", ["string"]),
  ("login_flags", ["string"]),
  ("securelevel", ["string"]),
  ("sysvmsg", ["new", "inherit", "disable"]),
  ("sysvsem", ["new", "inherit", "disable"]),
  ("sysvshm", ["new", "inherit", "disable"]),
  ("allow_set_hostname", ["0", "1"]),
  ("allow_sysvipc", ["0", "1"]),
  ("allow_raw_sockets", ["0", "1"]),
  ("allow_chflags", ["0", "1"]),
  ("allow_mlock", ["0", "1"]),
  ("allow_mount", ["0", "1"]),
  ("allow_mount_devfs", ["0", "1"]),
  ("allow_mount_nullfs", ["0", "1"]),
  ("allow_mount_procfs", ["0", "1"]),
  ("allow_mount_tmpfs", ["0", "1"]),
  ("allow_mount_zfs", ["0", "1"]),
  ("allow_quotas", ["0", "1"]),
  ("allow_socket_af", ["0", "1"]),
  ("vnet_interfaces", ["string"]),
  ("cpuset", ["off", "on"]),
  ("rlimits", ["off", "on"]),
  ("memoryuse", [":"]),
  ("memorylocked", ["off", "on"]),
  ("vmemoryuse", ["off", "on"]),
  ("maxproc", ["off", "on"]),
  ("cputime", ["off", "on"]),
  ("pcpu", [":"]),
  ("datasize", ["off", "on"]),
  ("stacksize", ["off", "on"]),
  ("coredumpsize", ["off", "on"]),
  ("openfiles", ["off", "on"]),
  ("pseudoterminals", ["off", "on"]),
  ("swapuse", ["off", "on"]),
  ("nthr", ["off", "on"]),
  ("msgqqueued", ["off", "on"]),
  ("msgqsize", ["off", "on"]),
  ("nmsgq", ["off", "on"]),
  ("nsemop", ["off", "on"]),
  ("nshm", ["off", "on"]),
  ("shmsize", ["off", "on"]),
  ("wallclock", ["off", "on"]),
  ("bpf", ["no", "yes"]),
  ("dhcp", ["off", "on"]),
  ("boot", ["off", "on"]),
  ("notes", ["string"]),
  ("owner", ["string"]),
  ("priority", ["(", "1", ",", " ", "2", "3", "4", "5", "6", "7", "8", "9", "0", ")"]),
  ("hostid", ["string"]),
  ("hostid_strict_check", ["no", "yes"]),
  ("jail_zfs", ["off", "on"]),
  ("jail_zfs_dataset", ["string"]),
  ("jail_zfs_mountpoint", ["string"]),
  ("mount_procfs", ["0", "1"]),
  ("mount_linprocfs", ["0", "1"]),
  ("vnet", ["off", "on"]),
  ("vnet_default_interface", ["string"]),
  ("template", ["no", "yes"]),
  ("comment", ["string"]),
  ("host_time", ["no", "yes"]),
  ("depends", ["string"]),
  ("allow_tun", ["0", "1"])]

/-- `props[key]`, as an option. -/
def lookupProps (k : String) : Option (List String) :=
  (propsTable.find? (fun p => p.1 = k)).map Prod.snd

/-- The keys of the `zfs_props` table (their values only classify them as
writable or read-only and do not affect `json_check_prop`'s control flow). -/
def zfsPropsKeys : List String :=
  ["compression", "origin", "quota", "mountpoint", "compressratio",
   "available", "used", "dedup", "reservation"]

/-- `[f'vnet{i}_mac' for i in range(0, 4)]`. -/
def vnetMacKeys : List String := ["vnet0_mac", "vnet1_mac", "vnet2_mac", "vnet3_mac"]

/-- ASCII lowering, as applied by `v.lower()` to candidate MAC strings. -/
def pyLowerAscii (s : String) : String :=
  String.mk (s.toList.map (fun c =>
    if 'A' ≤ c && c ≤ 'Z' then Char.ofNat (c.toNat + 32) else c))

/-- The rejection condition of the vnetX_mac branch, applied to the value
with commas already replaced by spaces: some field fails the MAC regex, or
there are not exactly two fields, or some field repeats. -/
def macPairBad (v : String) : Bool :=
  let parts := pySplitWs v
  parts.any (fun p => ¬ macMatch (pyLowerAscii p)) || parts.length ≠ 2 ||
    parts.any (fun p => 1 < parts.count p)

/-- `value.upper().endswith(("M", "G", "T"))`. -/
def quotaSuffixOk (value : String) : Bool :=
  match value.toList.reverse with
  | c :: _ => c = 'M' || c = 'G' || c = 'T' || c = 'm' || c = 'g' || c = 't'
  | [] => false

/-- The key-specific normalization block entered when `props[key][0] ==
"string"`:

* `ip4_addr`: when the value splits on `|` into exactly two parts and the
  interface part is the literal `DEFAULT`, it is replaced by the host's
  default-route interface (spec: netifaces; a missing default route raises
  a `KeyError`) and stored back into the record; any other shape falls
  through unchanged (`except ValueError: pass`).
* `vnet0_mac..vnet3_mac`: a nonempty value other than `"none"` has commas
  replaced by spaces and must then be exactly two distinct fields matching
  the MAC regex, else the EXCEPTION is raised; an empty value is
  standardized to `"none"`.
* `vnet_default_interface`: any value other than `"none"` must name an
  existing interface.
* Every other string-typed key is accepted unchanged. -/
def stringBranch (env : Env) (key value : String) (conf : Conf) :
    Except Err (String × Conf) × List Eff :=
  if key = "ip4_addr" then
    match pySplitOn value "|" with
    | [iface, ip] =>
        if iface = "DEFAULT" then
          match env.defaultIface with
          | some di => (.ok (di ++ "|" ++ ip, cSet conf key (di ++ "|" ++ ip)), [])
          | none => (.error (.keyError "default"), [])
        else (.ok (value, conf), [])
    | _ => (.ok (value, conf), [])
  else if vnetMacKeys.contains key then
    if value ≠ "" && value ≠ "none" then
      let v := commaToSpace value
      if macPairBad v then
        (.error (.invalidValue
          ("Please Enter two valid and different space/comma-delimited MAC addresses for "
            ++ key ++ ".")), [])
      else (.ok (v, conf), [])
    else if value = "" then (.ok ("none", conf), [])
    else (.ok (value, conf), [])
  else if key = "vnet_default_interface" && value ≠ "none" then
    if env.netIfaces.contains value then (.ok (value, conf), [])
    else (.error (.invalidValue "Please provide a valid NIC to be used with vnet"), [])
  else (.ok (value, conf), [])

/-- `json_check_prop(key, value, conf)`.

* A key of the `zfs_props` table is routed to the backing dataset
  (`conf["template"]` selects the dataset namespace — a `KeyError` when the
  record has no `template` key); `quota` values other than `"none"` must
  end (case-insensitively) in `M`, `G` or `T`.
* A catalog key is first run through `for k in props[key]: if k in value:
  return value, conf` — a *substring* membership test over the catalog
  entries.
* Failing that, a `"string"`-typed key goes through `stringBranch`, and any
  other key raises the "not a valid value" EXCEPTION (with the special
  `interfaces` / `memoryuse` wordings).
* An unknown key is rejected for CLI callers; for API callers it is
  tolerated exactly when it is already present in the record. -/
def json_check_prop (env : Env) (key value : String) (conf : Conf) :
    Except Err (String × Conf) × List Eff :=
  if zfsPropsKeys.contains key then
    match cGet conf "template" with
    | none => (.error (.keyError "template"), [])
    | some tmpl =>
        let ty := if tmpl = "yes" then "templates" else "jails"
        if key = "quota" && value ≠ "none" && ¬ quotaSuffixOk value then
          (.error (.invalidValue (value ++ " should have a suffix ending in M, G, or T.")), [])
        else
          (.ok (value, conf),
            [.zfsSet (env.rootDsName ++ "/" ++ ty ++ "/" ++ env.selfHostUuid) key value])
  else
    match lookupProps key with
    | some alts =>
        if alts.any (fun k => pyIn k value) then (.ok (value, conf), [])
        else if alts.head? = some "string" then stringBranch env key value conf
        else
          let msgTail :=
            if key = "interfaces" then
              "Interfaces must be specified as a pair.\nEXAMPLE: vnet0:bridge0, vnet1:bridge1"
            else if key = "memoryuse" then
              "memoryuse requires at minimum a pair.\nEXAMPLE: 8g:log"
            else "Value must be " ++ String.intercalate " or " alts
          (.error (.invalidValue
            (value ++ " is not a valid value for " ++ key ++ ".\n" ++ msgTail)), [])
    | none =>
        if env.cli then (.error (.invalidValue (key ++ " cannot be changed by the user.")), [])
        else if cHas conf key then (.ok (value, conf), [])
        else (.error (.invalidValue (key ++ " is not a valid property!")), [])

/-! ### Stage lemmas for the upgrade ladder -/

theorem v2keys_present (c : Conf) :
    (cGet (v2keys c) "sysvmsg").isSome ∧ (cGet (v2keys c) "sysvsem").isSome
      ∧ (cGet (v2keys c) "sysvshm").isSome := by
  unfold v2keys
  cases hm : cGet c "sysvmsg" <;> cases hs : cGet c "sysvsem" <;>
    cases hh : cGet c "sysvshm" <;>
    simp [cGet_cSet]

theorem v2keys_pres (c : Conf) (k : String) (h1 : k ≠ "sysvmsg")
    (h2 : k ≠ "sysvsem") (h3 : k ≠ "sysvshm") :
    cGet (v2keys c) k = cGet c k := by
  unfold v2keys
  cases hm : cGet c "sysvmsg" <;> cases hs : cGet c "sysvsem" <;>
    cases hh : cGet c "sysvshm" <;>
    simp [cGet_cSet, Ne.symm h1, Ne.symm h2, Ne.symm h3]

theorem v2keys_joint (c : Conf) (m s h : String)
    (hm : cGet c "sysvmsg" = some m) (hs : cGet c "sysvsem" = some s)
    (hh : cGet c "sysvshm" = some h) :
    cGet (v2keys c) "sysvmsg" = some m := by
  unfold v2keys
  rw [hm, hs, hh]
  simp [cGet_cSet]

theorem v2keys_fix (c : Conf) (hm : (cGet c "sysvmsg").isSome)
    (hs : (cGet c "sysvsem").isSome) (hh : (cGet c "sysvshm").isSome) :
    v2keys c = c := by
  unfold v2keys
  obtain ⟨m, hm⟩ := Option.isSome_iff_exists.mp hm
  obtain ⟨s, hs⟩ := Option.isSome_iff_exists.mp hs
  obtain ⟨h, hh⟩ := Option.isSome_iff_exists.mp hh
  rw [hm, hs, hh]
  show cSet (cSet (cSet c "sysvmsg" m) "sysvsem" s) "sysvshm" h = c
  rw [cSet_eq_of_cGet hm, cSet_eq_of_cGet hs, cSet_eq_of_cGet hh]

theorem v3release_pres (env : Env) (c c3 : Conf) (k : String)
    (hok : v3release env c = .ok c3)
    (h1 : k ≠ "release") (h2 : k ≠ "cloned_release") :
    cGet c3 k = cGet c k := by
  unfold v3release at hok
  split at hok
  · exact absurd hok (by simp)
  · dsimp only at hok
    split at hok
    · split at hok <;>
        { cases hok; simp [cGet_cSet, Ne.symm h1, Ne.symm h2] }
    · exact absurd hok (by simp)

theorem v3release_present (env : Env) (c c3 : Conf)
    (hok : v3release env c = .ok c3) :
    (cGet c3 "release").isSome ∧ (cGet c3 "cloned_release").isSome := by
  unfold v3release at hok
  split at hok
  · exact absurd hok (by simp)
  · dsimp only at hok
    split at hok
    · split at hok <;> { cases hok; simp [cGet_cSet] }
    · exact absurd hok (by simp)

theorem v4to7_pres (c : Conf) (k : String) (h1 : k ≠ "basejail")
    (h2 : k ≠ "comment") (h3 : k ≠ "host_time") (h4 : k ≠ "depends") :
    cGet (v4to7 c) k = cGet c k := by
  unfold v4to7
  simp [cGet_cSet, Ne.symm h1, Ne.symm h2, Ne.symm h3, Ne.symm h4]

theorem v4to7_values (c : Conf) :
    (cGet (v4to7 c) "basejail").isSome ∧ (cGet (v4to7 c) "comment").isSome
      ∧ cGet (v4to7 c) "host_time" = some "yes"
      ∧ cGet (v4to7 c) "depends" = some "none" := by
  unfold v4to7
  simp [cGet_cSet]

theorem v4to7_fix (c : Conf) (hb : (cGet c "basejail").isSome)
    (hc : (cGet c "comment").isSome)
    (ht : cGet c "host_time" = some "yes")
    (hd : cGet c "depends" = some "none") : v4to7 c = c := by
  unfold v4to7
  obtain ⟨b, hb⟩ := Option.isSome_iff_exists.mp hb
  obtain ⟨co, hc⟩ := Option.isSome_iff_exists.mp hc
  rw [hb]
  simp only [Option.getD_some]
  rw [cSet_eq_of_cGet hb, hc]
  simp only [Option.getD_some]
  rw [cSet_eq_of_cGet hc, cSet_eq_of_cGet ht, cSet_eq_of_cGet hd]

theorem v8_skip (env : Env) (c : Conf)
    (htag : cGet c "tag" = none ∨ cGet c "tag" = some env.selfHostUuid) :
    v8 env c = (.ok (c, false, false), []) := by
  unfold v8
  rcases htag with h | h
  · rw [h]
  · rw [h]; simp

/-- The record coming out of `json_migrate_uuid_to_tag` (also on the raising
paths, whose in-place mutations the caller keeps) agrees with its input on
every key other than `host_hostuuid` and `host_hostname`. -/
theorem migrate_pres (env : Env) (uuid tag : String) (state : Bool)
    (conf c' : Conf) (out : MigrateOut) (tr : List Eff) (k : String)
    (hok : json_migrate_uuid_to_tag env uuid tag state conf = (out, tr))
    (hc : (∃ r d, out = .ok c' r d) ∨ (∃ e, out = .err e c'))
    (h1 : k ≠ "host_hostuuid") (h2 : k ≠ "host_hostname") :
    cGet c' k = cGet conf k := by
  unfold json_migrate_uuid_to_tag at hok
  split at hok
  · dsimp only at hok
    split at hok
    · cases hok
      rcases hc with ⟨r, d, h⟩ | ⟨e, h⟩ <;> cases h
      rw [cGet_cSet_ne _ _ (Ne.symm h1)]
    · split at hok <;>
        { cases hok
          rcases hc with ⟨r, d, h⟩ | ⟨e, h⟩ <;> cases h
          first
          | rw [cGet_cSet_ne _ _ (Ne.symm h2), cGet_cSet_ne _ _ (Ne.symm h1)]
          | rw [cGet_cSet_ne _ _ (Ne.symm h1)] }
  · split at hok
    · cases hok
      rcases hc with ⟨r, d, h⟩ | ⟨e, h⟩ <;> cases h
      rfl
    · split at hok <;>
        { cases hok
          rcases hc with ⟨r, d, h⟩ | ⟨e, h⟩ <;> cases h
          rfl }

theorem v8_pres (env : Env) (c c8 : Conf) (e r : Bool) (tr : List Eff) (k : String)
    (hok : v8 env c = (.ok (c8, e, r), tr))
    (h1 : k ≠ "host_hostuuid") (h2 : k ≠ "host_hostname")
    (h3 : k ≠ "jail_zfs_dataset") :
    cGet c8 k = cGet c k := by
  unfold v8 at hok
  split at hok
  · simp only [Prod.mk.injEq, Except.ok.injEq] at hok
    obtain ⟨⟨hc8, -, -⟩, -⟩ := hok
    subst hc8; rfl
  · dsimp only at hok
    split at hok
    · simp only [Prod.mk.injEq, Except.ok.injEq] at hok
      obtain ⟨⟨hc8, -, -⟩, -⟩ := hok
      subst hc8; rfl
    · split at hok
      · exact absurd hok (by simp)
      · split at hok
        · rename_i kk cP tr0 heq
          simp only [Prod.mk.injEq, Except.ok.injEq] at hok
          obtain ⟨⟨hc8, -, -⟩, -⟩ := hok
          subst hc8
          exact migrate_pres env env.selfHostUuid _ env.running c cP _ tr0 k heq
            (Or.inr ⟨_, rfl⟩) h1 h2
        · exact absurd hok (by simp)
        · rename_i cM rtrn date tr0 heq
          split at hok
          · split at hok
            · simp only [Prod.mk.injEq, Except.ok.injEq] at hok
              obtain ⟨⟨hc8, -, -⟩, -⟩ := hok
              subst hc8
              rw [cGet_cSet_ne _ _ (Ne.symm h3)]
              exact migrate_pres env env.selfHostUuid _ env.running c cM _ tr0 k heq
                (Or.inl ⟨_, _, rfl⟩) h1 h2
            · exact absurd hok (by simp)
          · simp only [Prod.mk.injEq, Except.ok.injEq] at hok
            obtain ⟨⟨hc8, -, -⟩, -⟩ := hok
            subst hc8
            rw [cGet_cSet_ne _ _ (Ne.symm h3)]
            exact migrate_pres env env.selfHostUuid _ env.running c cM _ tr0 k heq
              (Or.inl ⟨_, _, rfl⟩) h1 h2

theorem v9to14_pres (c : Conf) (k : String)
    (h1 : k ≠ "dhcp") (h2 : k ≠ "bpf") (h3 : k ≠ "vnet_interfaces")
    (h4 : k ≠ "CONFIG_VERSION") (h5 : k ≠ "hostid_strict_check")
    (h6 : k ≠ "allow_mlock") (h7 : k ≠ "vnet_default_interface")
    (h8 : k ≠ "allow_tun") :
    cGet (v9to14 c) k = cGet c k := by
  unfold v9to14
  split <;>
    (dsimp only; split <;> split <;>
      simp [cGet_cSet, Ne.symm h1, Ne.symm h2, Ne.symm h3, Ne.symm h4,
        Ne.symm h5, Ne.symm h6, Ne.symm h7, Ne.symm h8])

theorem v9to14_present (c : Conf) :
    (cGet (v9to14 c) "dhcp").isSome ∧ (cGet (v9to14 c) "bpf").isSome
      ∧ (cGet (v9to14 c) "vnet_interfaces").isSome
      ∧ cGet (v9to14 c) "CONFIG_VERSION" = some "14"
      ∧ (cGet (v9to14 c) "hostid_strict_check").isSome
      ∧ (cGet (v9to14 c) "allow_mlock").isSome
      ∧ (cGet (v9to14 c) "vnet_default_interface").getD "" ≠ ""
      ∧ (cGet (v9to14 c) "allow_tun").getD "" ≠ "" := by
  unfold v9to14
  split <;> (dsimp only; split <;> split <;> simp_all [cGet_cSet, CONFIG_VERSION])

theorem v9to14_dhcp_joint (c : Conf) (d b : String)
    (hd : cGet c "dhcp" = some d) (hb : cGet c "bpf" = some b) :
    cGet (v9to14 c) "dhcp" = some d := by
  unfold v9to14
  rw [hd, hb]
  dsimp only
  split <;> split <;> simp_all [cGet_cSet]

theorem v9to14_fix (c : Conf)
    (hd : (cGet c "dhcp").isSome) (hb : (cGet c "bpf").isSome)
    (hv : (cGet c "vnet_interfaces").isSome)
    (hcv : cGet c "CONFIG_VERSION" = some "14")
    (hh : (cGet c "hostid_strict_check").isSome)
    (hm : (cGet c "allow_mlock").isSome)
    (hvd : (cGet c "vnet_default_interface").getD "" ≠ "")
    (hat : (cGet c "allow_tun").getD "" ≠ "") :
    v9to14 c = c := by
  obtain ⟨d, hd⟩ := Option.isSome_iff_exists.mp hd
  obtain ⟨b, hb⟩ := Option.isSome_iff_exists.mp hb
  obtain ⟨vi, hv⟩ := Option.isSome_iff_exists.mp hv
  obtain ⟨hs, hh⟩ := Option.isSome_iff_exists.mp hh
  obtain ⟨am, hm⟩ := Option.isSome_iff_exists.mp hm
  unfold v9to14
  rw [hd, hb]
  dsimp only
  rw [cSet_eq_of_cGet hd, cSet_eq_of_cGet hb, hv]
  simp only [Option.getD_some]
  rw [cSet_eq_of_cGet hv, show CONFIG_VERSION = "14" from rfl,
    cSet_eq_of_cGet hcv, hh]
  simp only [Option.getD_some]
  rw [cSet_eq_of_cGet hh, hm]
  simp only [Option.getD_some]
  rw [cSet_eq_of_cGet hm, if_neg hvd, if_neg hat]

theorem persistTail_write (env : Env) (c : Conf) (tagVar : Option String)
    (tr : List Eff) (hw : env.writeOk env.location = true) :
    persistTail env c tagVar false false tr
      = (.ok c, tr ++ [.jsonWrite env.location c]) := by
  unfold persistTail
  simp [hw]

theorem persistTail_ok_inv (env : Env) (c c' : Conf) (tagVar : Option String)
    (renamed : Bool) (tr tr' : List Eff)
    (hok : persistTail env c tagVar renamed false tr = (.ok c', tr')) :
    c' = c ∧ tr'.any Eff.isJsonWrite = true := by
  unfold persistTail at hok
  cases renamed with
  | true =>
    simp only [Bool.true_eq_false, and_false, if_false, if_true] at hok
    rcases tagVar with - | t
    · exact absurd hok (by simp)
    · dsimp only at hok
      split at hok <;> exact absurd hok (by simp)
  | false =>
    simp only [and_self, if_true] at hok
    by_cases hw : env.writeOk env.location
    · rw [if_pos hw] at hok
      simp only [Bool.false_eq_true, if_false, Prod.mk.injEq, Except.ok.injEq] at hok
      obtain ⟨hc, htr⟩ := hok
      refine ⟨hc.symm, ?_⟩
      rw [← htr]
      simp [List.any_append, Eff.isJsonWrite]
    · rw [if_neg hw] at hok
      rcases tagVar with - | t
      · exact absurd hok (by simp)
      · dsimp only at hok
        split at hok
        · exact absurd hok (by simp)
        · rename_i heq
          split at heq <;> exact absurd heq (by simp)

/-- The shape of a record on which the ladder is a fixpoint: every defaulted
key present, the forced keys at their forced values, the version stamp
current, the release fields consistent with the host and the marker files,
and no divergent legacy `tag`. -/
structure UpgradedShape (env : Env) (c : Conf) : Prop where
  sysvmsg : (cGet c "sysvmsg").isSome
  sysvsem : (cGet c "sysvsem").isSome
  sysvshm : (cGet c "sysvshm").isSome
  release : ∃ r, cGet c "release" = some r
    ∧ (env.fileExists (relMarker env (stripPatch r))
        || env.fileExists (tmplMarker env)) = true
    ∧ ((take4EndsDash (stripPatch r) = true ∧ (cGet c "cloned_release").isSome)
        ∨ (take4EndsDash (stripPatch r) = false ∧ r = env.hostRelease
            ∧ cGet c "cloned_release" = some r))
  basejail : (cGet c "basejail").isSome
  comment : (cGet c "comment").isSome
  host_time : cGet c "host_time" = some "yes"
  depends : cGet c "depends" = some "none"
  tag : cGet c "tag" = none ∨ cGet c "tag" = some env.selfHostUuid
  dhcp : (cGet c "dhcp").isSome
  bpf : (cGet c "bpf").isSome
  vnet_interfaces : (cGet c "vnet_interfaces").isSome
  config_version : cGet c "CONFIG_VERSION" = some "14"
  hostid_strict_check : (cGet c "hostid_strict_check").isSome
  allow_mlock : (cGet c "allow_mlock").isSome
  vnet_default_interface : (cGet c "vnet_default_interface").getD "" ≠ ""
  allow_tun : (cGet c "allow_tun").getD "" ≠ ""

theorem check_config_fixpoint (env : Env) (c : Conf)
    (hsh : UpgradedShape env c) (heuid : env.euid = 0)
    (hw : env.writeOk env.location = true) :
    json_check_config env c false = (.ok c, [.jsonWrite env.location c]) := by
  have h2 : v2keys c = c := v2keys_fix c hsh.sysvmsg hsh.sysvsem hsh.sysvshm
  obtain ⟨r, hr, hmark, hcase⟩ := hsh.release
  have h3 : v3release env c = .ok c := by
    unfold v3release
    rw [hr]
    dsimp only
    rw [if_pos hmark]
    rcases hcase with ⟨hd, hcl⟩ | ⟨hd, hH, hcl⟩
    · rw [if_pos hd]
      obtain ⟨cl, hcl⟩ := Option.isSome_iff_exists.mp hcl
      rw [cSet_eq_of_cGet hr, hcl]
      simp only [Option.getD_some]
      rw [cSet_eq_of_cGet hcl]
    · rw [if_neg (by simp [hd])]
      rw [← hH, cSet_eq_of_cGet hr, cSet_eq_of_cGet hcl]
  have h47 : v4to7 c = c :=
    v4to7_fix c hsh.basejail hsh.comment hsh.host_time hsh.depends
  have h8 : v8 env c = (.ok (c, false, false), []) := v8_skip env c hsh.tag
  have h9 : v9to14 c = c :=
    v9to14_fix c hsh.dhcp hsh.bpf hsh.vnet_interfaces hsh.config_version
      hsh.hostid_strict_check hsh.allow_mlock hsh.vnet_default_interface
      hsh.allow_tun
  unfold json_check_config
  rw [if_neg (by simp [heuid])]
  rw [h2, h3]
  dsimp only
  rw [h47, h8]
  dsimp only
  rw [if_neg (by simp), h9, persistTail_write env c _ [] hw]
  simp

theorem isSome_of_getD_ne (o : Option String) (h : o.getD "" ≠ "") :
    o.isSome := by
  cases o <;> simp_all

theorem check_config_upgrades (env : Env) (conf : Conf) (r0 : String)
    (heuid : env.euid = 0)
    (hrel : cGet conf "release" = some r0)
    (hmark : (env.fileExists (relMarker env (stripPatch r0))
        || env.fileExists (tmplMarker env)) = true)
    (htag : cGet conf "tag" = none ∨ cGet conf "tag" = some env.selfHostUuid)
    (hw : env.writeOk env.location = true)
    (hstable : take4EndsDash (stripPatch r0) = true ∨ r0 = env.hostRelease) :
    ∃ c', json_check_config env conf false = (.ok c', [.jsonWrite env.location c'])
      ∧ UpgradedShape env c'
      ∧ cGet c' "CONFIG_VERSION" = some "14"
      ∧ (∀ k ∈ ladderKeys, (cGet c' k).isSome = true) := by
  set c2 := v2keys conf with hc2
  have hc2rel : cGet c2 "release" = some r0 := by
    rw [hc2, v2keys_pres conf _ (by decide) (by decide) (by decide)]; exact hrel
  have hc2tag : cGet c2 "tag" = cGet conf "tag" := by
    rw [hc2]; exact v2keys_pres conf _ (by decide) (by decide) (by decide)
  obtain ⟨hs1, hs2, hs3⟩ := v2keys_present conf
  obtain ⟨cl, h3, hclcase⟩ :
      ∃ cl, v3release env c2 = .ok (cSet (cSet c2 "release" r0) "cloned_release" cl)
        ∧ (take4EndsDash (stripPatch r0) = true
            ∨ (take4EndsDash (stripPatch r0) = false ∧ r0 = env.hostRelease
                ∧ cl = r0)) := by
    by_cases hdash : take4EndsDash (stripPatch r0) = true
    · refine ⟨(cGet c2 "cloned_release").getD "LEGACY_JAIL", ?_, Or.inl hdash⟩
      unfold v3release
      rw [hc2rel]
      dsimp only
      rw [if_pos hmark, if_pos hdash]
    · rcases hstable with h | hH
      · exact absurd h hdash
      · refine ⟨r0, ?_,
          Or.inr ⟨by revert hdash; cases take4EndsDash (stripPatch r0) <;> simp, hH, rfl⟩⟩
        unfold v3release
        rw [hc2rel]
        dsimp only
        rw [if_pos hmark, if_neg hdash, ← hH]
  set c3 := cSet (cSet c2 "release" r0) "cloned_release" cl with hc3
  have h3rel : cGet c3 "release" = some r0 := by
    rw [hc3, cGet_cSet_ne _ _ (by decide), cGet_cSet_self]
  have h3cl : cGet c3 "cloned_release" = some cl := by
    rw [hc3, cGet_cSet_self]
  have h3pres : ∀ k : String, k ≠ "release" → k ≠ "cloned_release" →
      cGet c3 k = cGet c2 k := by
    intro k hk1 hk2
    rw [hc3, cGet_cSet_ne _ _ (Ne.symm hk2), cGet_cSet_ne _ _ (Ne.symm hk1)]
  set c7 := v4to7 c3 with hc7
  obtain ⟨h7bj, h7cm, h7ht, h7dp⟩ := v4to7_values c3
  have h7pres : ∀ k : String, k ≠ "basejail" → k ≠ "comment" →
      k ≠ "host_time" → k ≠ "depends" → cGet c7 k = cGet c3 k := by
    intro k a b d e
    rw [hc7]; exact v4to7_pres c3 k a b d e
  have h7tag : cGet c7 "tag" = cGet conf "tag" := by
    rw [h7pres _ (by decide) (by decide) (by decide) (by decide),
      h3pres _ (by decide) (by decide), hc2tag]
  have h8 : v8 env c7 = (.ok (c7, false, false), []) := by
    refine v8_skip env c7 ?_
    rw [h7tag]; exact htag
  set c14 := v9to14 c7 with hc14
  have h14pres : ∀ k : String, k ≠ "dhcp" → k ≠ "bpf" → k ≠ "vnet_interfaces" →
      k ≠ "CONFIG_VERSION" → k ≠ "hostid_strict_check" → k ≠ "allow_mlock" →
      k ≠ "vnet_default_interface" → k ≠ "allow_tun" → cGet c14 k = cGet c7 k := by
    intro k a b d e f g i j
    rw [hc14]; exact v9to14_pres c7 k a b d e f g i j
  obtain ⟨p1, p2, p3, p4, p5, p6, p7, p8⟩ := v9to14_present c7
  have q1 : (cGet c14 "sysvmsg").isSome := by
    rw [h14pres _ (by decide) (by decide) (by decide) (by decide) (by decide)
        (by decide) (by decide) (by decide),
      h7pres _ (by decide) (by decide) (by decide) (by decide),
      h3pres _ (by decide) (by decide)]
    exact hs1
  have q2 : (cGet c14 "sysvsem").isSome := by
    rw [h14pres _ (by decide) (by decide) (by decide) (by decide) (by decide)
        (by decide) (by decide) (by decide),
      h7pres _ (by decide) (by decide) (by decide) (by decide),
      h3pres _ (by decide) (by decide)]
    exact hs2
  have q3 : (cGet c14 "sysvshm").isSome := by
    rw [h14pres _ (by decide) (by decide) (by decide) (by decide) (by decide)
        (by decide) (by decide) (by decide),
      h7pres _ (by decide) (by decide) (by decide) (by decide),
      h3pres _ (by decide) (by decide)]
    exact hs3
  have qrel : cGet c14 "release" = some r0 := by
    rw [h14pres _ (by decide) (by decide) (by decide) (by decide) (by decide)
        (by decide) (by decide) (by decide),
      h7pres _ (by decide) (by decide) (by decide) (by decide)]
    exact h3rel
  have qcl : cGet c14 "cloned_release" = some cl := by
    rw [h14pres _ (by decide) (by decide) (by decide) (by decide) (by decide)
        (by decide) (by decide) (by decide),
      h7pres _ (by decide) (by decide) (by decide) (by decide)]
    exact h3cl
  have qbj : (cGet c14 "basejail").isSome := by
    rw [h14pres _ (by decide) (by decide) (by decide) (by decide) (by decide)
        (by decide) (by decide) (by decide)]
    exact h7bj
  have qcm : (cGet c14 "comment").isSome := by
    rw [h14pres _ (by decide) (by decide) (by decide) (by decide) (by decide)
        (by decide) (by decide) (by decide)]
    exact h7cm
  have qht : cGet c14 "host_time" = some "yes" := by
    rw [h14pres _ (by decide) (by decide) (by decide) (by decide) (by decide)
        (by decide) (by decide) (by decide)]
    exact h7ht
  have qdp : cGet c14 "depends" = some "none" := by
    rw [h14pres _ (by decide) (by decide) (by decide) (by decide) (by decide)
        (by decide) (by decide) (by decide)]
    exact h7dp
  have qtag : cGet c14 "tag" = cGet conf "tag" := by
    rw [h14pres _ (by decide) (by decide) (by decide) (by decide) (by decide)
        (by decide) (by decide) (by decide)]
    exact h7tag
  have hshape : UpgradedShape env c14 := by
    refine ⟨q1, q2, q3, ⟨r0, qrel, hmark, ?_⟩, qbj, qcm, qht, qdp, ?_, p1, p2, p3,
      p4, p5, p6, p7, p8⟩
    · rcases hclcase with hd | ⟨hd, hH, hcl⟩
      · exact Or.inl ⟨hd, by rw [qcl]; rfl⟩
      · exact Or.inr ⟨hd, hH, by rw [qcl, hcl]⟩
    · rw [qtag]; exact htag
  refine ⟨c14, ?_, hshape, p4, ?_⟩
  · unfold json_check_config
    rw [if_neg (by simp [heuid]), ← hc2, h3]
    dsimp only
    rw [← hc7, h8]
    dsimp only
    rw [if_neg (by simp), ← hc14, persistTail_write env c14 _ [] hw]
    simp
  · intro k hk
    fin_cases hk
    · exact q1
    · exact q2
    · exact q3
    · rw [qrel]; rfl
    · rw [qcl]; rfl
    · exact qbj
    · exact qcm
    · rw [qht]; rfl
    · rw [qdp]; rfl
    · exact p1
    · exact p2
    · exact p3
    · rw [show cGet c14 "CONFIG_VERSION" = some "14" from p4]; rfl
    · exact p5
    · exact p6
    · exact isSome_of_getD_ne _ p7
    · exact isSome_of_getD_ne _ p8

theorem check_config_success_shape (env : Env) (conf c' : Conf) (tr : List Eff)
    (hok : json_check_config env conf false = (.ok c', tr)) :
    upgradeTookRetryPath env conf = true
    ∨ (cGet c' "CONFIG_VERSION" = some "14"
        ∧ ∀ k ∈ ladderKeys, (cGet c' k).isSome = true) := by
  unfold json_check_config at hok
  split at hok
  · exact absurd hok (by simp)
  · split at hok
    · exact absurd hok (by simp)
    case _ c3 heq3 =>
      dsimp only at hok
      split at hok
      · exact absurd hok (by simp)
      case _ c8 earlyRet renamed tr8 heq8 =>
        by_cases he : earlyRet = true
        · left
          unfold upgradeTookRetryPath
          rw [heq3]
          dsimp only
          rw [heq8]
          exact he
        · right
          rw [if_neg he] at hok
          obtain ⟨hc', -⟩ :=
            persistTail_ok_inv env (v9to14 c8) c' _ renamed tr8 tr hok
          subst hc'
          obtain ⟨p1, p2, p3, p4, p5, p6, p7, p8⟩ := v9to14_present c8
          have h8p : ∀ k : String, k ≠ "host_hostuuid" → k ≠ "host_hostname" →
              k ≠ "jail_zfs_dataset" → cGet c8 k = cGet (v4to7 c3) k := by
            intro k a b d
            exact v8_pres env (v4to7 c3) c8 earlyRet renamed tr8 k heq8 a b d
          have h3p : ∀ k : String, k ≠ "release" → k ≠ "cloned_release" →
              cGet c3 k = cGet (v2keys conf) k := by
            intro k a b
            exact v3release_pres env (v2keys conf) c3 k heq3 a b
          obtain ⟨hs1, hs2, hs3⟩ := v2keys_present conf
          obtain ⟨hrl, hcl⟩ := v3release_present env (v2keys conf) c3 heq3
          obtain ⟨hbj, hcm, hht, hdp⟩ := v4to7_values c3
          have pres14 := v9to14_pres c8
          refine ⟨p4, ?_⟩
          intro k hk
          fin_cases hk
          · rw [pres14 _ (by decide) (by decide) (by decide) (by decide)
              (by decide) (by decide) (by decide) (by decide),
              h8p _ (by decide) (by decide) (by decide),
              v4to7_pres _ _ (by decide) (by decide) (by decide) (by decide),
              h3p _ (by decide) (by decide)]
            exact hs1
          · rw [pres14 _ (by decide) (by decide) (by decide) (by decide)
              (by decide) (by decide) (by decide) (by decide),
              h8p _ (by decide) (by decide) (by decide),
              v4to7_pres _ _ (by decide) (by decide) (by decide) (by decide),
              h3p _ (by decide) (by decide)]
            exact hs2
          · rw [pres14 _ (by decide) (by decide) (by decide) (by decide)
              (by decide) (by decide) (by decide) (by decide),
              h8p _ (by decide) (by decide) (by decide),
              v4to7_pres _ _ (by decide) (by decide) (by decide) (by decide),
              h3p _ (by decide) (by decide)]
            exact hs3
          · rw [pres14 _ (by decide) (by decide) (by decide) (by decide)
              (by decide) (by decide) (by decide) (by decide),
              h8p _ (by decide) (by decide) (by decide),
              v4to7_pres _ _ (by decide) (by decide) (by decide) (by decide)]
            exact hrl
          · rw [pres14 _ (by decide) (by decide) (by decide) (by decide)
              (by decide) (by decide) (by decide) (by decide),
              h8p _ (by decide) (by decide) (by decide),
              v4to7_pres _ _ (by decide) (by decide) (by decide) (by decide)]
            exact hcl
          · rw [pres14 _ (by decide) (by decide) (by decide) (by decide)
              (by decide) (by decide) (by decide) (by decide),
              h8p _ (by decide) (by decide) (by decide)]
            exact hbj
          · rw [pres14 _ (by decide) (by decide) (by decide) (by decide)
              (by decide) (by decide) (by decide) (by decide),
              h8p _ (by decide) (by decide) (by decide)]
            exact hcm
          · rw [pres14 _ (by decide) (by decide) (by decide) (by decide)
              (by decide) (by decide) (by decide) (by decide),
              h8p _ (by decide) (by decide) (by decide), hht]
            rfl
          · rw [pres14 _ (by decide) (by decide) (by decide) (by decide)
              (by decide) (by decide) (by decide) (by decide),
              h8p _ (by decide) (by decide) (by decide), hdp]
            rfl
          · exact p1
          · exact p2
          · exact p3
          · rw [p4]; rfl
          · exact p5
          · exact p6
          · exact isSome_of_getD_ne _ p7
          · exact isSome_of_getD_ne _ p8

/-! ### Concrete environments and records for witnesses and counterexamples -/

/-- A root, forced, stopped-jail environment over a host at `12.0-RELEASE`
with release trees for `11.2-RELEASE` and `12.0-RELEASE`. -/
def envBase : Env := {
  euid := 0, force := true, stop := false, running := false, cli := false,
  selfHostUuid := "1e2f3a4b-5c6d-7e8f-9a0b-1c2d3e4f5a6b",
  hostRelease := "12.0-RELEASE",
  iocroot := "/ioc", location := "/ioc/jails/j1", rootDsName := "tank/iocage",
  fileExists := fun p =>
    p = "/ioc/releases/11.2-RELEASE/root/bin/freebsd-version"
    || p = "/ioc/releases/12.0-RELEASE/root/bin/freebsd-version",
  writeOk := fun _ => true,
  defaultIface := some "em0", netIfaces := ["em0", "lo0"] }

/-- `envBase` with a caller that set `stop=True` and a running jail. -/
def envRetry : Env := { envBase with stop := true, running := true }

/-- `envBase` with a non-root effective uid. -/
def envNonRoot : Env := { envBase with euid := 1000 }

/-! ### C10 -/

/-- Claim C10 (confirmed): every invocation of `json_check_config` by a caller
whose effective uid is not 0 fails with the privilege EXCEPTION before the
record is examined or modified — the result does not depend on the record
and carries no effects. -/
theorem json_check_config_requires_root (env : Env) (conf : Conf)
    (default : Bool) (h : env.euid ≠ 0) :
    json_check_config env conf default = (.error .permission, []) := by
  unfold json_check_config
  rw [if_pos h]

theorem json_check_config_requires_root_witness :
    envNonRoot.euid ≠ 0 ∧
      json_check_config envNonRoot [("release", "11.2-RELEASE")] false
        = (.error .permission, []) :=
  ⟨by decide, json_check_config_requires_root envNonRoot _ false (by decide)⟩

/-! ### C6 -/

/-- Claim C6 (confirmed): for a non-date-like tag on a running instance,
`json_migrate_uuid_to_tag` returns the retry signal `(conf, True, False)`
with the record untouched and zero storage calls when the caller's stop
policy permits deferring, and raises the running-instance EXCEPTION with
zero storage calls when it does not. -/
theorem json_migrate_running_instance_behavior (env : Env) (uuid tag : String)
    (conf : Conf) (hdate : dateLikeTag tag = false) :
    (env.stop = true →
      json_migrate_uuid_to_tag env uuid tag true conf = (.ok conf true false, []))
    ∧ (env.stop = false →
      json_migrate_uuid_to_tag env uuid tag true conf
        = (.err .instanceRunning conf, [])) := by
  constructor <;> intro hs <;> simp [json_migrate_uuid_to_tag, hdate, hs]

theorem json_migrate_running_instance_behavior_witness :
    dateLikeTag "myjail" = false
    ∧ json_migrate_uuid_to_tag envRetry "u1" "myjail" true [("a", "b")]
        = (.ok [("a", "b")] true false, [])
    ∧ json_migrate_uuid_to_tag envBase "u1" "myjail" true [("a", "b")]
        = (.err .instanceRunning [("a", "b")], []) :=
  ⟨by decide,
   (json_migrate_running_instance_behavior envRetry "u1" "myjail" [("a", "b")]
     (by decide)).1 (by decide),
   (json_migrate_running_instance_behavior envBase "u1" "myjail" [("a", "b")]
     (by decide)).2 (by decide)⟩

/-! ### C4 -/

/-- Claim C4 counterexample: a date-like tag on a record that lacks
`host_hostname` does not return the normalized record — the final block's
`conf["host_hostname"]` read raises a `KeyError` (after `host_hostuuid` was
already mutated in place), so the claim's universally quantified behaviour
fails at this input. -/
theorem json_migrate_date_tag_keyerror :
    json_migrate_uuid_to_tag envBase "u1" "2019-01-02@03:04:05:000000" false []
      = (.err (.keyError "host_hostname") [("host_hostuuid", "u1")], []) := by
  decide

/-- Claim C4 (amended): for a tag matching either legacy timestamp format, on
a record that contains `host_hostname`, `json_migrate_uuid_to_tag` returns
immediately with the record unchanged except `host_hostuuid` set to the
identifier, zero storage calls, and result flags `(retry, date) = (false,
true)`. -/
theorem json_migrate_date_tag_normalizes (env : Env) (uuid tag : String)
    (state : Bool) (conf : Conf) (h : String)
    (hdate : dateLikeTag tag = true)
    (hhn : cGet conf "host_hostname" = some h) :
    json_migrate_uuid_to_tag env uuid tag state conf
      = (.ok (cSet conf "host_hostuuid" uuid) false true, []) := by
  unfold json_migrate_uuid_to_tag
  rw [if_pos hdate]
  dsimp only
  have h1 : cGet (cSet conf "host_hostuuid" uuid) "host_hostname" = some h := by
    rw [cGet_cSet_ne _ _ (by decide)]; exact hhn
  rw [h1]
  dsimp only
  by_cases he : h = uuid
  · subst he
    rw [if_pos rfl, cSet_eq_of_cGet h1]
  · rw [if_neg he]

theorem json_migrate_date_tag_normalizes_witness :
    dateLikeTag "2019-01-02@03:04:05:000000" = true
    ∧ cGet [("host_hostname", "x")] "host_hostname" = some "x"
    ∧ json_migrate_uuid_to_tag envBase "u1" "2019-01-02@03:04:05:000000" false
        [("host_hostname", "x")]
      = (.ok (cSet [("host_hostname", "x")] "host_hostuuid" "u1") false true, []) :=
  ⟨by decide, by decide,
   json_migrate_date_tag_normalizes envBase "u1" "2019-01-02@03:04:05:000000"
     false [("host_hostname", "x")] "x" (by decide) (by decide)⟩

/-! ### C5 -/

/-- Claim C5 counterexample: in the genuine-rename path with the instance
stopped, `json_migrate_uuid_to_tag` does not return a triple at all — the
rename protocol aborts at the unbound name `pool` — so no
`wasDateLikeTag = false` component is returned. -/
theorem json_migrate_genuine_rename_raises :
    json_migrate_uuid_to_tag envBase "u1" "myjail" false [("host_hostname", "u1")]
      = (.err (.nameError "pool") [("host_hostname", "u1")], []) := by decide

/-- Claim C5 (amended): in the genuine-rename path (tag not date-like) the
function never completes a rename: the only normal return is the
retry-after-stop signal `(conf, true, false)` (whose third component is the
`false` the claim attributes to completed renames), a running instance
without deferral raises the running-instance EXCEPTION, and a stopped
instance raises `NameError` on `pool` before any storage call; a normal
return with third component `false` therefore occurs only on the retry
signal. -/
theorem json_migrate_genuine_rename_outcomes (env : Env) (uuid tag : String)
    (state : Bool) (conf : Conf) (hdate : dateLikeTag tag = false) :
    (env.stop = true ∧ state = true →
      json_migrate_uuid_to_tag env uuid tag state conf = (.ok conf true false, []))
    ∧ (env.stop = false ∧ state = true →
      json_migrate_uuid_to_tag env uuid tag state conf
        = (.err .instanceRunning conf, []))
    ∧ (state = false →
      json_migrate_uuid_to_tag env uuid tag state conf
        = (.err (.nameError "pool") conf, []))
    ∧ (∀ c' r d, ∀ tr : List Eff,
        json_migrate_uuid_to_tag env uuid tag state conf = (.ok c' r d, tr)
        → r = true ∧ d = false ∧ c' = conf ∧ tr = []) := by
  refine ⟨?_, ?_, ?_, ?_⟩
  · rintro ⟨h1, h2⟩
    simp [json_migrate_uuid_to_tag, hdate, h1, h2]
  · rintro ⟨h1, h2⟩
    simp [json_migrate_uuid_to_tag, hdate, h1, h2]
  · intro h1
    subst h1
    simp [json_migrate_uuid_to_tag, hdate]
  · intro c' r d tr hok
    unfold json_migrate_uuid_to_tag at hok
    rw [if_neg (by simp [hdate])] at hok
    by_cases hss : env.stop && state
    · rw [if_pos hss] at hok
      simp only [Prod.mk.injEq, MigrateOut.ok.injEq] at hok
      obtain ⟨⟨a, b, c⟩, e⟩ := hok
      exact ⟨b.symm, c.symm, a.symm, e.symm⟩
    · rw [if_neg hss] at hok
      split at hok <;> exact absurd hok (by simp)

theorem json_migrate_genuine_rename_outcomes_witness :
    dateLikeTag "myjail" = false
    ∧ json_migrate_uuid_to_tag envRetry "u1" "myjail" true [("a", "b")]
        = (.ok [("a", "b")] true false, []) :=
  ⟨by decide,
   (json_migrate_genuine_rename_outcomes envRetry "u1" "myjail" true [("a", "b")]
     (by decide)).1 ⟨by decide, rfl⟩⟩

/-! ### C8 -/

theorem splitAtEq_no_eq (cs : List Char) (h : '=' ∉ cs) : splitAtEq cs = (cs, []) := by
  induction cs with
  | nil => rfl
  | cons c cs ih =>
    simp only [List.mem_cons, not_or] at h
    obtain ⟨h1, h2⟩ := h
    simp only [splitAtEq, ih h2, if_neg (Ne.symm h1)]

theorem splitAtEq_append (k v : List Char) (h : '=' ∉ k) :
    splitAtEq (k ++ '=' :: v) = (k, v) := by
  induction k with
  | nil => simp [splitAtEq]
  | cons c cs ih =>
    simp only [List.mem_cons, not_or] at h
    obtain ⟨h1, h2⟩ := h
    simp only [List.cons_append, splitAtEq, List.append_eq, ih h2,
      if_neg (Ne.symm h1)]

/-- Claim C8 counterexample: on the two-line input `"  key=val;ue;\n"`,
`"noequals\n"` the importer keeps the key's leading whitespace, deletes the
*interior* semicolons of the value, and *does* produce an entry (with empty
value) for the line containing no `=` — unlike the claimed `[("key",
"val;ue")]`. -/
theorem json_convert_from_ucl_cex :
    uclParse ["  key=val;ue;\n", "noequals\n"]
      = [("  key", "value"), ("noequals", "")]
    ∧ uclParse ["  key=val;ue;\n", "noequals\n"] ≠ [("key", "val;ue")] := by
  decide

/-- Claim C8 (amended): each line is partitioned at its first `=`; the key is
the text before it with only *trailing* whitespace removed (leading
whitespace is kept); the value is the text after it with *every* `;` and
every `"` character removed (wherever they occur) and then trimmed; a line
with no `=` produces an entry mapping the right-stripped whole line to the
empty string.  The parsed record is persisted via `json_write` (after the
root check). -/
theorem json_convert_from_ucl_line_semantics (env : Env) (lines : List String)
    (heuid : env.euid = 0) :
    json_convert_from_ucl env lines
      = (.ok (), [.jsonWrite env.location (uclParse lines)])
    ∧ (∀ acc : Conf, ∀ k v : String, '=' ∉ k.toList →
        uclLine acc (k ++ "=" ++ v)
          = cSet acc (pyRstrip k) (pyStrip (removeChar '"' (removeChar ';' v))))
    ∧ (∀ acc : Conf, ∀ line : String, '=' ∉ line.toList →
        uclLine acc line = cSet acc (pyRstrip line) "") := by
  refine ⟨?_, ?_, ?_⟩
  · unfold json_convert_from_ucl
    rw [if_neg (by simp [heuid])]
  · intro acc k v h
    unfold uclLine splitAtEqStr
    have ht : (k ++ "=" ++ v).toList = k.toList ++ '=' :: v.toList := by
      simp [String.toList]
    rw [ht, splitAtEq_append _ _ h]
    rfl
  · intro acc line h
    unfold uclLine splitAtEqStr
    rw [splitAtEq_no_eq _ h]
    rfl

theorem json_convert_from_ucl_line_semantics_witness :
    envBase.euid = 0
    ∧ json_convert_from_ucl envBase ["a=b\n"]
        = (.ok (), [.jsonWrite envBase.location (uclParse ["a=b\n"])]) :=
  ⟨rfl, (json_convert_from_ucl_line_semantics envBase ["a=b\n"] rfl).1⟩

/-- Decidable equality for `Except` results (not derived in core). -/
instance {e a : Type} [DecidableEq e] [DecidableEq a] : DecidableEq (Except e a) :=
  fun x y =>
    match x, y with
    | .ok u, .ok v =>
        if h : u = v then isTrue (by rw [h]) else isFalse (by simp [h])
    | .error u, .error v =>
        if h : u = v then isTrue (by rw [h]) else isFalse (by simp [h])
    | .ok _, .error _ => isFalse (by simp)
    | .error _, .ok _ => isFalse (by simp)

/-! ### C9 -/

/-- Claim C9 counterexample: the catalog's substring membership loop (`for k
in props[key]: if k in value: return value, conf`) accepts any vnet MAC
value that merely *contains* the text `string` — here the value `"string"`
itself, which is neither `"none"` nor empty nor two valid MAC addresses —
without validation. -/
theorem json_check_prop_mac_string_bypass :
    macPairBad (commaToSpace "string") = true
    ∧ json_check_prop envBase "vnet0_mac" "string" []
        = (.ok ("string", []), []) := by decide

/-- Claim C9 (amended): for `vnet0_mac..vnet3_mac` and a value other than
`"none"`/`""` that does not contain the substring `"string"` (such values
bypass validation), the write fails unless the comma-normalized value is
exactly two distinct fields matching the MAC regex, and a passing value is
returned normalized to space-delimited form. -/
theorem json_check_prop_mac_pair_validation (env : Env) (key value : String)
    (conf : Conf) (hkey : key ∈ vnetMacKeys)
    (hstr : pyIn "string" value = false)
    (hne : value ≠ "none") (hnz : value ≠ "") :
    (macPairBad (commaToSpace value) = true →
      json_check_prop env key value conf
        = (.error (.invalidValue
            ("Please Enter two valid and different space/comma-delimited MAC addresses for "
              ++ key ++ ".")), []))
    ∧ (macPairBad (commaToSpace value) = false →
      json_check_prop env key value conf = (.ok (commaToSpace value, conf), [])) := by
  have hbody : List.contains vnetMacKeys key = true →
      key ≠ "ip4_addr" →
      lookupProps key = some ["string"] →
      List.contains zfsPropsKeys key = false →
      (macPairBad (commaToSpace value) = true →
        json_check_prop env key value conf
          = (.error (.invalidValue
              ("Please Enter two valid and different space/comma-delimited MAC addresses for "
                ++ key ++ ".")), []))
      ∧ (macPairBad (commaToSpace value) = false →
        json_check_prop env key value conf = (.ok (commaToSpace value, conf), [])) := by
    intro hkeyIn hip hp hz
    have hzn : ¬ (List.contains zfsPropsKeys key = true) := by rw [hz]; simp
    constructor <;> intro hbad
    · unfold json_check_prop
      rw [if_neg hzn, hp]
      dsimp only
      rw [if_neg (by simp [List.any_cons, List.any_nil, hstr]),
        if_pos (show (["string"] : List String).head? = some "string" from rfl)]
      unfold stringBranch
      rw [if_neg hip, if_pos hkeyIn, if_pos (by simp [hne, hnz])]
      dsimp only
      rw [if_pos hbad]
    · unfold json_check_prop
      rw [if_neg hzn, hp]
      dsimp only
      rw [if_neg (by simp [List.any_cons, List.any_nil, hstr]),
        if_pos (show (["string"] : List String).head? = some "string" from rfl)]
      unfold stringBranch
      rw [if_neg hip, if_pos hkeyIn, if_pos (by simp [hne, hnz])]
      dsimp only
      rw [if_neg (by simp [hbad])]
  fin_cases hkey
  · exact hbody (by decide) (by decide) (by decide) (by decide)
  · exact hbody (by decide) (by decide) (by decide) (by decide)
  · exact hbody (by decide) (by decide) (by decide) (by decide)
  · exact hbody (by decide) (by decide) (by decide) (by decide)

theorem json_check_prop_mac_pair_validation_witness :
    ("vnet0_mac" ∈ vnetMacKeys
      ∧ pyIn "string" "02:ff:60:00:01:01,02:ff:60:00:01:01" = false
      ∧ macPairBad (commaToSpace "02:ff:60:00:01:01,02:ff:60:00:01:01") = true
      ∧ json_check_prop envBase "vnet0_mac" "02:ff:60:00:01:01,02:ff:60:00:01:01" []
          = (.error (.invalidValue
              ("Please Enter two valid and different space/comma-delimited MAC addresses for "
                ++ "vnet0_mac" ++ ".")), []))
    ∧ (macPairBad (commaToSpace "02:ff:60:00:01:01,02:ff:60:00:01:02") = false
      ∧ json_check_prop envBase "vnet0_mac" "02:ff:60:00:01:01,02:ff:60:00:01:02" []
          = (.ok (commaToSpace "02:ff:60:00:01:01,02:ff:60:00:01:02", []), [])) :=
  ⟨⟨by decide, by decide, by decide,
    (json_check_prop_mac_pair_validation envBase "vnet0_mac"
      "02:ff:60:00:01:01,02:ff:60:00:01:01" [] (by decide) (by decide) (by decide)
      (by decide)).1 (by decide)⟩,
   ⟨by decide,
    (json_check_prop_mac_pair_validation envBase "vnet0_mac"
      "02:ff:60:00:01:01,02:ff:60:00:01:02" [] (by decide) (by decide) (by decide)
      (by decide)).2 (by decide)⟩⟩

/-! ### C7 -/

/-- A record with `sysvmsg` present but `sysvsem`/`sysvshm` absent. -/
def confC7 : Conf := [("sysvmsg", "inherit"), ("release", "11.2-RELEASE")]

/-- Claim C7 counterexample: the version-2 step reads `sysvmsg`, `sysvsem` and
`sysvshm` in one `try`; with `sysvsem`/`sysvshm` absent the `except
KeyError` resets all three, so the present `sysvmsg = "inherit"` is
overwritten with `"new"`. -/
theorem json_check_config_sysvmsg_reset :
    cGet confC7 "sysvmsg" = some "inherit"
    ∧ cGet confC7 "sysvsem" = none
    ∧ ((json_check_config envBase confC7 false).1.toOption.bind
        (fun c => cGet c "sysvmsg")) = some "new" := by decide

/-- Claim C7 (amended): a present `sysvmsg` survives any successful
`json_check_config` run *provided* `sysvsem` and `sysvshm` are present as
well (the three are read jointly, and a `KeyError` on any of them resets all
three); likewise a present `dhcp` survives provided `bpf` is also present. -/
theorem json_check_config_joint_key_preservation (env : Env) (conf c' : Conf)
    (tr : List Eff) (m s h d b : String)
    (hok : json_check_config env conf false = (.ok c', tr)) :
    ((cGet conf "sysvmsg" = some m ∧ cGet conf "sysvsem" = some s
        ∧ cGet conf "sysvshm" = some h) → cGet c' "sysvmsg" = some m)
    ∧ ((cGet conf "dhcp" = some d ∧ cGet conf "bpf" = some b)
        → cGet c' "dhcp" = some d) := by
  unfold json_check_config at hok
  split at hok
  · exact absurd hok (by simp)
  · split at hok
    · exact absurd hok (by simp)
    case _ c3 heq3 =>
      dsimp only at hok
      split at hok
      · exact absurd hok (by simp)
      case _ c8 earlyRet renamed tr8 heq8 =>
        have h8p : ∀ k : String, k ≠ "host_hostuuid" → k ≠ "host_hostname" →
            k ≠ "jail_zfs_dataset" → cGet c8 k = cGet (v4to7 c3) k :=
          fun k a b dd => v8_pres env (v4to7 c3) c8 earlyRet renamed tr8 k heq8 a b dd
        have h3p : ∀ k : String, k ≠ "release" → k ≠ "cloned_release" →
            cGet c3 k = cGet (v2keys conf) k :=
          fun k a b => v3release_pres env (v2keys conf) c3 k heq3 a b
        have tmsg : (cGet conf "sysvmsg" = some m ∧ cGet conf "sysvsem" = some s
            ∧ cGet conf "sysvshm" = some h) → cGet c8 "sysvmsg" = some m := by
          rintro ⟨hm, hs, hh⟩
          rw [h8p _ (by decide) (by decide) (by decide),
            v4to7_pres _ _ (by decide) (by decide) (by decide) (by decide),
            h3p _ (by decide) (by decide)]
          exact v2keys_joint conf m s h hm hs hh
        have tdhcp : cGet c8 "dhcp" = cGet conf "dhcp" := by
          rw [h8p _ (by decide) (by decide) (by decide),
            v4to7_pres _ _ (by decide) (by decide) (by decide) (by decide),
            h3p _ (by decide) (by decide),
            v2keys_pres _ _ (by decide) (by decide) (by decide)]
        have tbpf : cGet c8 "bpf" = cGet conf "bpf" := by
          rw [h8p _ (by decide) (by decide) (by decide),
            v4to7_pres _ _ (by decide) (by decide) (by decide) (by decide),
            h3p _ (by decide) (by decide),
            v2keys_pres _ _ (by decide) (by decide) (by decide)]
        by_cases he : earlyRet = true
        · rw [if_pos he] at hok
          simp only [Prod.mk.injEq, Except.ok.injEq] at hok
          obtain ⟨hc', -⟩ := hok
          subst hc'
          refine ⟨tmsg, ?_⟩
          rintro ⟨hd2, -⟩
          rw [tdhcp]; exact hd2
        · rw [if_neg he] at hok
          obtain ⟨hc', -⟩ :=
            persistTail_ok_inv env (v9to14 c8) c' _ renamed tr8 tr hok
          subst hc'
          constructor
          · intro hj
            rw [v9to14_pres _ _ (by decide) (by decide) (by decide) (by decide)
              (by decide) (by decide) (by decide) (by decide)]
            exact tmsg hj
          · rintro ⟨hd2, hb2⟩
            exact v9to14_dhcp_joint c8 d b (by rw [tdhcp]; exact hd2)
              (by rw [tbpf]; exact hb2)

/-- The input of the C7 amended-claim witness. -/
def confC7w : Conf := [("sysvmsg", "inherit"), ("sysvsem", "new"),
  ("sysvshm", "disable"), ("dhcp", "on"), ("bpf", "yes"),
  ("release", "12.0-RELEASE")]

/-- The upgraded output of `confC7w` under `envBase`. -/
def confC7out : Conf := [("sysvmsg", "inherit"), ("sysvsem", "new"),
  ("sysvshm", "disable"), ("dhcp", "on"), ("bpf", "yes"),
  ("release", "12.0-RELEASE"), ("cloned_release", "12.0-RELEASE"),
  ("basejail", "no"), ("comment", "none"), ("host_time", "yes"),
  ("depends", "none"), ("vnet_interfaces", "none"), ("CONFIG_VERSION", "14"),
  ("hostid_strict_check", "off"), ("allow_mlock", "0"),
  ("vnet_default_interface", "none"), ("allow_tun", "0")]

theorem json_check_config_joint_key_preservation_witness :
    (cGet confC7w "sysvmsg" = some "inherit"
      ∧ cGet confC7w "sysvsem" = some "new"
      ∧ cGet confC7w "sysvshm" = some "disable")
    ∧ cGet confC7out "sysvmsg" = some "inherit"
    ∧ cGet confC7out "dhcp" = some "on" :=
  ⟨⟨by decide, by decide, by decide⟩,
   (json_check_config_joint_key_preservation envBase confC7w confC7out
      [.jsonWrite "/ioc/jails/j1" confC7out] "inherit" "new" "disable" "on" "yes"
      (by decide)).1 ⟨by decide, by decide, by decide⟩,
   (json_check_config_joint_key_preservation envBase confC7w confC7out
      [.jsonWrite "/ioc/jails/j1" confC7out] "inherit" "new" "disable" "on" "yes"
      (by decide)).2 ⟨by decide, by decide⟩⟩

/-! ### C2 -/

/-- Claim C2 counterexample: a record already stamped `CONFIG_VERSION = "14"`
is adopted by `json_load` exactly as it is on disk, so a sparse record
(every other ladder key absent) stays sparse in memory — missing keys are
resolved through defaults at read time, not materialized in the record. -/
theorem json_load_sparse_v14_cex :
    json_load_final envBase [("CONFIG_VERSION", "14")]
      = (.ok [("CONFIG_VERSION", "14")], [])
    ∧ cGet [("CONFIG_VERSION", "14")] "sysvmsg" = none := by decide

/-- Claim C2 (amended): after the final dispatch of `json_load` succeeds,
either the on-disk record was already at the current version and is adopted
as-is (its `CONFIG_VERSION` is `"14"` but other ladder keys may be absent),
or the upgrade took the version-8 retry-after-stop path (returning the
unstamped record), or the record was upgraded and then carries
`CONFIG_VERSION = "14"` together with every ladder key. -/
theorem json_load_version_invariant (env : Env) (conf c' : Conf)
    (tr : List Eff)
    (hok : json_load_final env conf = (.ok c', tr)) :
    (cGet conf "CONFIG_VERSION" = some "14" ∧ c' = conf)
    ∨ upgradeTookRetryPath env conf = true
    ∨ (cGet c' "CONFIG_VERSION" = some "14"
        ∧ ∀ k ∈ ladderKeys, (cGet c' k).isSome = true) := by
  unfold json_load_final at hok
  split at hok
  case _ hv =>
    simp only [Prod.mk.injEq, Except.ok.injEq] at hok
    exact Or.inl ⟨hv, hok.1.symm⟩
  case _ hv =>
    exact Or.inr (check_config_success_shape env conf c' tr hok)

theorem json_load_version_invariant_witness :
    json_load_final envBase [("CONFIG_VERSION", "14")]
        = (.ok [("CONFIG_VERSION", "14")], [])
    ∧ ((cGet [("CONFIG_VERSION", "14")] "CONFIG_VERSION" = some "14"
          ∧ [("CONFIG_VERSION", "14")] = [("CONFIG_VERSION", "14")])
      ∨ upgradeTookRetryPath envBase [("CONFIG_VERSION", "14")] = true
      ∨ (cGet [("CONFIG_VERSION", "14")] "CONFIG_VERSION" = some "14"
          ∧ ∀ k ∈ ladderKeys, (cGet [("CONFIG_VERSION", "14")] k).isSome = true)) :=
  ⟨by decide,
   json_load_version_invariant envBase [("CONFIG_VERSION", "14")]
     [("CONFIG_VERSION", "14")] [] (by decide)⟩

/-! ### C3 -/

/-- A legacy record with a divergent tag, as read before the version-8
migration. -/
def confC3 : Conf := [("release", "11.2-RELEASE"), ("tag", "mytag")]

/-- Claim C3 counterexample: when the migration signals retry-after-stop,
`json_check_config` does not simply return the unmigrated record — before
reaching the `if rtrn: return conf`, the `if not date:` block runs the
`fileinput` rewrite of `{iocroot}/jails/{tag}/fstab`, a path that does not
exist because nothing was renamed on the deferral path, so the call raises
`FileNotFoundError` instead of returning. -/
theorem json_check_config_retry_cex :
    json_check_config envRetry confC3 false
      = (.error (.fileNotFound "/ioc/jails/mytag/fstab"), []) := by decide

/-- Claim C3 (amended): when the version-8 migration signals retry-after-stop,
`json_check_config` never calls `json_write`; but before the early return it
updates `jail_zfs_dataset` on the record and attempts the identifier-to-tag
rewrite of the fstab at the *tag* path: if that file is missing the call
raises `FileNotFoundError` (no effects at all), and if it exists the fstab
is rewritten on disk and the record is returned unstamped (its
`CONFIG_VERSION` is unchanged).  In every other successful `default=False`
run, `json_write` persists the record. -/
theorem json_check_config_retry_behavior (env : Env) (conf : Conf)
    (r0 t : String)
    (heuid : env.euid = 0)
    (hrel : cGet conf "release" = some r0)
    (hmark : (env.fileExists (relMarker env (stripPatch r0))
        || env.fileExists (tmplMarker env)) = true)
    (htag : cGet conf "tag" = some t)
    (htne : t ≠ env.selfHostUuid)
    (hdate : dateLikeTag t = false)
    (hforce : env.force = true)
    (hstop : env.stop = true)
    (hrun : env.running = true) :
    (env.fileExists (env.iocroot ++ "/jails/" ++ t ++ "/fstab") = false →
      json_check_config env conf false
        = (.error (.fileNotFound (env.iocroot ++ "/jails/" ++ t ++ "/fstab")), []))
    ∧ (env.fileExists (env.iocroot ++ "/jails/" ++ t ++ "/fstab") = true →
      ∃ c', json_check_config env conf false
          = (.ok c', [.fstabRewrite (env.iocroot ++ "/jails/" ++ t ++ "/fstab")
              env.selfHostUuid t])
        ∧ cGet c' "CONFIG_VERSION" = cGet conf "CONFIG_VERSION"
        ∧ cGet c' "jail_zfs_dataset" = some ("iocage/jails/" ++ t ++ "/data"))
    ∧ (∀ env2 : Env, ∀ conf2 c2 : Conf, ∀ tr2 : List Eff,
        json_check_config env2 conf2 false = (.ok c2, tr2) →
        upgradeTookRetryPath env2 conf2 = false →
        tr2.any Eff.isJsonWrite = true) := by
  have hc2rel : cGet (v2keys conf) "release" = some r0 := by
    rw [v2keys_pres conf _ (by decide) (by decide) (by decide)]; exact hrel
  obtain ⟨c3, h3⟩ : ∃ c3, v3release env (v2keys conf) = .ok c3 := by
    unfold v3release
    rw [hc2rel]
    dsimp only
    rw [if_pos hmark]
    by_cases hd : take4EndsDash (stripPatch r0) = true
    · rw [if_pos hd]; exact ⟨_, rfl⟩
    · rw [if_neg hd]; exact ⟨_, rfl⟩
  have htag7 : cGet (v4to7 c3) "tag" = some t := by
    rw [v4to7_pres _ _ (by decide) (by decide) (by decide) (by decide),
      v3release_pres env _ c3 _ h3 (by decide) (by decide),
      v2keys_pres _ _ (by decide) (by decide) (by decide)]
    exact htag
  have hmig : json_migrate_uuid_to_tag env env.selfHostUuid t env.running (v4to7 c3)
      = (.ok (v4to7 c3) true false, []) := by
    unfold json_migrate_uuid_to_tag
    rw [if_neg (by simp [hdate]), if_pos (by simp [hstop, hrun])]
  have h8 : v8 env (v4to7 c3)
      = (if env.fileExists (env.iocroot ++ "/jails/" ++ t ++ "/fstab") then
          (.ok (cSet (v4to7 c3) "jail_zfs_dataset" ("iocage/jails/" ++ t ++ "/data"),
            true, true),
            [.fstabRewrite (env.iocroot ++ "/jails/" ++ t ++ "/fstab")
              env.selfHostUuid t])
        else (.error (.fileNotFound (env.iocroot ++ "/jails/" ++ t ++ "/fstab")), [])) := by
    unfold v8
    rw [htag7]
    dsimp only
    rw [if_neg htne, if_neg (by simp [hforce]), hmig]
    dsimp only
    rw [if_pos rfl]
    by_cases hfs : env.fileExists (env.iocroot ++ "/jails/" ++ t ++ "/fstab") = true
    · rw [if_pos hfs, if_pos hfs]
      simp
    · rw [if_neg hfs, if_neg hfs]
  refine ⟨?_, ?_, ?_⟩
  · intro hfs
    unfold json_check_config
    rw [if_neg (by simp [heuid]), h3]
    dsimp only
    rw [h8, if_neg (by simp [hfs])]
  · intro hfs
    refine ⟨cSet (v4to7 c3) "jail_zfs_dataset" ("iocage/jails/" ++ t ++ "/data"),
      ?_, ?_, ?_⟩
    · unfold json_check_config
      rw [if_neg (by simp [heuid]), h3]
      dsimp only
      rw [h8, if_pos hfs]
      dsimp only
      rw [if_pos rfl]
    · rw [cGet_cSet_ne _ _ (by decide),
        v4to7_pres _ _ (by decide) (by decide) (by decide) (by decide),
        v3release_pres env _ c3 _ h3 (by decide) (by decide),
        v2keys_pres _ _ (by decide) (by decide) (by decide)]
    · rw [cGet_cSet_self]
  · intro env2 conf2 c2 tr2 hok hnr
    unfold json_check_config at hok
    split at hok
    · exact absurd hok (by simp)
    · split at hok
      · exact absurd hok (by simp)
      case _ c3b heq3 =>
        dsimp only at hok
        split at hok
        · exact absurd hok (by simp)
        case _ c8 earlyRet renamed tr8 heq8 =>
          by_cases he : earlyRet = true
          · have hretry : upgradeTookRetryPath env2 conf2 = true := by
              unfold upgradeTookRetryPath
              rw [heq3]
              dsimp only
              rw [heq8]
              exact he
            rw [hretry] at hnr
            exact absurd hnr (by simp)
          · rw [if_neg he] at hok
            exact (persistTail_ok_inv env2 (v9to14 c8) c2 _ renamed tr8 tr2 hok).2

theorem json_check_config_retry_behavior_witness :
    envRetry.fileExists (envRetry.iocroot ++ "/jails/" ++ "mytag" ++ "/fstab") = false
    ∧ json_check_config envRetry confC3 false
        = (.error (.fileNotFound
            (envRetry.iocroot ++ "/jails/" ++ "mytag" ++ "/fstab")), []) :=
  ⟨by decide,
   (json_check_config_retry_behavior envRetry confC3 "11.2-RELEASE" "mytag"
     (by decide) (by decide) (by decide) (by decide) (by decide) (by decide)
     (by decide) (by decide) (by decide)).1 (by decide)⟩

/-! ### C1 -/

/-- The input of the C1 counterexample: a version-less record whose release
(`11.2-RELEASE`, with an existing release marker) differs from the host
release (`12.0-RELEASE`). -/
def confC1 : Conf := [("release", "11.2-RELEASE")]

/-- Claim C1 counterexample: `json_check_config` is not idempotent.  On
`confC1` the first run sets `release` to the host release and moves
`11.2-RELEASE` into `cloned_release`; the second run overwrites
`cloned_release` with the (already rewritten) `release`, so applying the
upgrade to its own output yields a different record. -/
theorem json_check_config_not_idempotent :
    ((json_check_config envBase confC1 false).1.toOption.bind
      (fun c => ((json_check_config envBase c false).1).toOption))
    ≠ (json_check_config envBase confC1 false).1.toOption := by decide

/-- Claim C1 (amended): for a record with a `release` whose (patch-stripped)
marker file exists, no divergent legacy `tag`, and a writable location, the
upgrade returns a record stamped `CONFIG_VERSION = "14"` containing every
ladder key, persisted by exactly one `json_write` — and, *when the stored
release is an old dash-style release or already equals the host release*
(the condition the `cloned_release` rewrite needs), a second application
returns the very same record. -/
theorem json_check_config_upgrade_idempotent (env : Env) (conf : Conf)
    (r0 : String)
    (heuid : env.euid = 0)
    (hrel : cGet conf "release" = some r0)
    (hmark : (env.fileExists (relMarker env (stripPatch r0))
        || env.fileExists (tmplMarker env)) = true)
    (htag : cGet conf "tag" = none ∨ cGet conf "tag" = some env.selfHostUuid)
    (hw : env.writeOk env.location = true)
    (hstable : take4EndsDash (stripPatch r0) = true ∨ r0 = env.hostRelease) :
    ∃ c', json_check_config env conf false
        = (.ok c', [.jsonWrite env.location c'])
      ∧ cGet c' "CONFIG_VERSION" = some "14"
      ∧ (∀ k ∈ ladderKeys, (cGet c' k).isSome = true)
      ∧ json_check_config env c' false
          = (.ok c', [.jsonWrite env.location c']) := by
  obtain ⟨c', h1, hsh, h2, h3⟩ :=
    check_config_upgrades env conf r0 heuid hrel hmark htag hw hstable
  exact ⟨c', h1, h2, h3, check_config_fixpoint env c' hsh heuid hw⟩

/-- The input of the C1 amended-claim witness: its release equals the host
release, so the idempotence condition holds. -/
def confC1w : Conf := [("release", "12.0-RELEASE")]

theorem json_check_config_upgrade_idempotent_witness :
    (envBase.euid = 0
      ∧ cGet confC1w "release" = some "12.0-RELEASE"
      ∧ (envBase.fileExists (relMarker envBase (stripPatch "12.0-RELEASE"))
          || envBase.fileExists (tmplMarker envBase)) = true
      ∧ cGet confC1w "tag" = none
      ∧ envBase.writeOk envBase.location = true
      ∧ "12.0-RELEASE" = envBase.hostRelease)
    ∧ ∃ c', json_check_config envBase confC1w false
        = (.ok c', [.jsonWrite envBase.location c'])
      ∧ cGet c' "CONFIG_VERSION" = some "14"
      ∧ (∀ k ∈ ladderKeys, (cGet c' k).isSome = true)
      ∧ json_check_config envBase c' false
          = (.ok c', [.jsonWrite envBase.location c']) :=
  ⟨⟨rfl, by decide, by decide, by decide, by decide, rfl⟩,
   json_check_config_upgrade_idempotent envBase confC1w "12.0-RELEASE" rfl
     (by decide) (by decide) (Or.inl (by decide)) (by decide) (Or.inr rfl)⟩
